import Mathlib

/-!
Verification development for the Astrolabe request router (src/server.js).

The JavaScript source is shallowly embedded: pure routing functions become
Lean functions over `String`/`Nat`/`List`; the two network suspension points
(judge backend, upstream provider) are modelled as explicit outcome values
passed into the functions that consume them.  JavaScript strings are modelled
as Lean strings with ASCII case folding; the word-boundary regexes of the
source (all of the shape `\b(alt|alt|...)\b` over ASCII phrases) are modelled
by an executable token matcher below.
-/

namespace Astrolabe

/-- JS `\s` (ASCII part): the whitespace class used by `String.trim`,
`replace(/\s+/g, " ")` and the separator classes of the signal regexes. -/
def jsWhitespace (c : Char) : Bool :=
  c == ' ' || c == '\t' || c == '\n' || c == '\r' || c == '\x0b' || c == '\x0c'

/-- JS `\w` (ASCII): letters, digits and underscore; used for `\b` boundaries. -/
def isWordChar (c : Char) : Bool :=
  c.isAlpha || c.isDigit || c == '_'

/-- JS `String.prototype.trim` (ASCII whitespace). -/
def jsTrim (s : String) : String :=
  String.mk (((s.toList.dropWhile jsWhitespace).reverse.dropWhile jsWhitespace).reverse)

/-- Helper for `normalizeWhitespace`: collapse every run of whitespace to a
single space (the flag records whether the previous character was whitespace). -/
def squashWsAux : Bool → List Char → List Char
  | _, [] => []
  | prevWs, c :: rest =>
    if jsWhitespace c then
      if prevWs then squashWsAux true rest else ' ' :: squashWsAux true rest
    else c :: squashWsAux false rest

/-- `normalizeWhitespace` of server.js: `String(text || "").replace(/\s+/g, " ").trim()`. -/
def normalizeWhitespace (s : String) : String :=
  jsTrim (String.mk (squashWsAux false s.toList))

/-- JS `a || b` on strings: `b` when `a` is the empty string. -/
def jsOrStr (a b : String) : String :=
  if a == ("") then b else a

/-- ASCII lowercasing of one character (JS `toLowerCase` on the ASCII range). -/
def lowerChar (c : Char) : Char :=
  if 'A' ≤ c && c ≤ 'Z' then Char.ofNat (c.toNat + 32) else c

def lowerList (cs : List Char) : List Char := cs.map lowerChar

/-- JS `String.prototype.toLowerCase` (ASCII model). -/
def jsLower (s : String) : String := String.mk (lowerList s.toList)

/-- JS `String.prototype.slice(0, n)` on ASCII strings. -/
def jsSlice (s : String) (n : Nat) : String := String.mk (s.toList.take n)

/-- Split a character list at underscores (`"a_b"` → `["a", "b"]`). -/
def splitUnderscoreAux : List Char → List Char → List (List Char)
  | acc, [] => [acc.reverse]
  | acc, c :: rest =>
    if c == '_' then acc.reverse :: splitUnderscoreAux [] rest
    else splitUnderscoreAux (c :: acc) rest

/-- Helper for `dedupe`, carrying the set of already seen values. -/
def dedupeAux : List String → List String → List String
  | _, [] => []
  | seen, x :: xs =>
    if x == ("") || seen.contains x then dedupeAux seen xs
    else x :: dedupeAux (x :: seen) xs

/-- `dedupe` of server.js: `[...new Set(values.filter(Boolean))]` — drops empty
strings and keeps the first occurrence of each value. -/
def dedupe (values : List String) : List String :=
  dedupeAux [] values

/-! ### Word-bounded pattern matching

All regexes in server.js that the claims touch are case-insensitive
alternations of literal phrases wrapped in `\b ... \b`, where a phrase may
contain the separator classes `[\s_-]*` (from `signalToRegex`), `[-\s]?` and
`[- ]`.  Every phrase starts and ends with a word character, so `\b` reduces
to: the previous character (if any) is a non-word character, and the character
following the match (if any) is a non-word character. -/

inductive Tok where
  /-- a literal character run -/
  | lit : List Char → Tok
  /-- `[\s_-]*` produced by `signalToRegex` for an underscore -/
  | sepStar : Tok
  /-- `[-\s]?` -/
  | sepOpt : Tok
  /-- `[- ]` (exactly one dash or space) -/
  | sepSpaceDashOne : Tok
deriving DecidableEq, Repr

/-- Separator class `[\s_-]`. -/
def isSigSep (c : Char) : Bool := jsWhitespace c || c == '_' || c == '-'

/-- Separator class `[-\s]`. -/
def isDashWs (c : Char) : Bool := c == '-' || jsWhitespace c

/-- Separator class `[- ]`. -/
def isDashSpace (c : Char) : Bool := c == '-' || c == ' '

/-- Consume a literal prefix. -/
def stripLit : List Char → List Char → Option (List Char)
  | [], cs => some cs
  | _ :: _, [] => none
  | p :: ps, c :: cs => if p == c then stripLit ps cs else none

/-- Match a token sequence at the head of the text, returning the rest.
`sepStar` is maximal-munch and `sepOpt` consumes one separator when present;
both are equivalent to the backtracking regex here because every following
literal starts with a word character, which is never a separator. -/
def matchToks : List Tok → List Char → Option (List Char)
  | [], cs => some cs
  | Tok.lit l :: rest, cs =>
    match stripLit l cs with
    | none => none
    | some cs2 => matchToks rest cs2
  | Tok.sepStar :: rest, cs => matchToks rest (cs.dropWhile isSigSep)
  | Tok.sepOpt :: rest, cs =>
    match cs with
    | [] => matchToks rest []
    | c :: cs2 => if isDashWs c then matchToks rest cs2 else matchToks rest (c :: cs2)
  | Tok.sepSpaceDashOne :: rest, cs =>
    match cs with
    | [] => none
    | c :: cs2 => if isDashSpace c then matchToks rest cs2 else none

/-- The `\b` after the match: end of text or a non-word character. -/
def boundaryAfter : List Char → Bool
  | [] => true
  | c :: _ => !isWordChar c

/-- Does the token pattern match at the head of `cs`, with a word boundary
after it? -/
def matchesHere (toks : List Tok) (cs : List Char) : Bool :=
  match matchToks toks cs with
  | some rest => boundaryAfter rest
  | none => false

/-- Scan the text for a word-bounded match; the flag records whether the
previous character was a word character (the `\b` before the match). -/
def containsTokAux (toks : List Tok) : Bool → List Char → Bool
  | _, [] => false
  | prevWord, c :: rest =>
    (!prevWord && matchesHere toks (c :: rest)) || containsTokAux toks (isWordChar c) rest

/-- `new RegExp("\\b" + pattern + "\\b", "i").test(text)` for one alternative,
applied to already-lowercased text. -/
def containsTok (toks : List Tok) (lowerText : List Char) : Bool :=
  containsTokAux toks false lowerText

/-- A plain phrase alternative (no separator classes). -/
def litP (s : String) : List Tok := [Tok.lit s.toList]

/-- Test an alternation `\b(p1|p2|...)\b` of plain phrases. -/
def anyPhrase (alternatives : List String) (lowerText : List Char) : Bool :=
  alternatives.any (fun p => containsTok (litP p) lowerText)

/-- Test an alternation whose alternatives may use separator tokens. -/
def anyPat (alternatives : List (List Tok)) (lowerText : List Char) : Bool :=
  alternatives.any (fun p => containsTok p lowerText)

/-- `signalToRegex` of server.js: a signal is lowercased and each underscore
becomes `[\s_-]*`. -/
def signalToks (signal : String) : List Tok :=
  List.intersperse Tok.sepStar ((splitUnderscoreAux [] (lowerList signal.toList)).map Tok.lit)

/-- `collectMatchedSignals` of server.js: the signals whose word-bounded
pattern occurs in the lowercased text, in signal-list order, deduplicated. -/
def collectMatchedSignals (text : String) (signals : List String) : List String :=
  dedupe (signals.filter (fun s => containsTok (signalToks s) (lowerList text.toList)))

/-! ### Static tables -/

structure CategoryPolicy where
  id : String
  injectionRisk : String
  classifierSignals : List String
deriving DecidableEq, Repr

def CATEGORY_POLICIES : List CategoryPolicy := [
  { id := ("heartbeat"), injectionRisk := ("LOW"),
    classifierSignals := ["heartbeat", "ping", "status", "health_check", "alive", "compaction", "session_health"] },
  { id := ("core_loop"), injectionRisk := ("HIGH"),
    classifierSignals := ["tool_use", "function_call", "react_loop", "tool_selection", "retry", "confidence_check"] },
  { id := ("retrieval"), injectionRisk := ("MEDIUM-HIGH"),
    classifierSignals := ["calendar", "email_search", "web_search", "web_fetch", "memory_search", "weather", "lookup", "find"] },
  { id := ("summarization"), injectionRisk := ("MEDIUM"),
    classifierSignals := ["summarize", "extract", "digest", "key_points", "receipt", "invoice", "action_items"] },
  { id := ("planning"), injectionRisk := ("MEDIUM-HIGH"),
    classifierSignals := ["plan", "break_down", "schedule", "steps", "itinerary", "workflow", "sub_agent", "coordinate"] },
  { id := ("orchestration"), injectionRisk := ("HIGH"),
    classifierSignals := ["browser", "automation", "shell", "git", "multi_step", "checkout", "form_fill", "sequential"] },
  { id := ("coding"), injectionRisk := ("HIGH"),
    classifierSignals := ["code", "debug", "refactor", "test", "function", "script", "git_commit", "pr_review", "architecture"] },
  { id := ("research"), injectionRisk := ("HIGH"),
    classifierSignals := ["research", "analysis", "synthesize", "literature", "competitive", "report", "deep_dive", "compare"] },
  { id := ("creative"), injectionRisk := ("LOW"),
    classifierSignals := ["brainstorm", "creative", "story", "write", "copy", "ideas", "design", "blog", "poem"] },
  { id := ("communication"), injectionRisk := ("MEDIUM"),
    classifierSignals := ["message", "reply", "chat", "email_reply", "slack", "negotiate", "support", "conversation"] },
  { id := ("high_stakes"), injectionRisk := ("CRITICAL"),
    classifierSignals := ["payment", "invoice", "transfer", "contract", "legal", "password", "pii", "health", "sensitive", "irreversible"] },
  { id := ("reflection"), injectionRisk := ("MEDIUM"),
    classifierSignals := ["reflect", "debug_self", "stuck", "loop_detected", "failure", "improve", "learn", "retry_strategy"] }
]

/-- `CATEGORY_BY_ID.get`. -/
def categoryById (id : String) : Option CategoryPolicy :=
  CATEGORY_POLICIES.find? (fun c => c.id == id)

def CATEGORY_IDS : List String := CATEGORY_POLICIES.map (fun c => c.id)

def COMPLEXITY_ORDER : List String := ["simple", "standard", "complex", "critical"]

/-- The static model registry, reduced to the key → OpenRouter id mapping that
routing consumes (`modelIdForKey`). -/
def MODELS : List (String × String) := [
  ("opus", "anthropic/claude-opus-4.6"),
  ("sonnet", "anthropic/claude-sonnet-4.6"),
  ("m25", "minimax/minimax-m2.5"),
  ("kimiK25", "moonshotai/kimi-k2.5"),
  ("glm5", "z-ai/glm-5"),
  ("grok", "x-ai/grok-4.1-fast"),
  ("nano", "openai/gpt-5-nano"),
  ("dsCoder", "deepseek/deepseek-v3.2"),
  ("gemFlash", "google/gemini-3-flash-preview"),
  ("gem31Pro", "google/gemini-3.1-pro-preview")
]

def modelIdForKey (modelKey : String) : Option String :=
  (MODELS.find? (fun p => p.1 == modelKey)).map (fun p => p.2)

def MODEL_FALLBACKS : List (String × List String) := [
  ("nano", ["grok", "m25", "dsCoder", "kimiK25", "glm5", "gemFlash", "sonnet"]),
  ("dsCoder", ["grok", "m25", "glm5", "kimiK25", "gemFlash", "sonnet"]),
  ("gemFlash", ["grok", "m25", "kimiK25", "glm5", "sonnet", "opus"]),
  ("grok", ["nano", "m25", "kimiK25", "glm5", "gemFlash", "sonnet"]),
  ("gem31Pro", ["kimiK25", "grok", "m25", "glm5", "sonnet", "opus"]),
  ("m25", ["glm5", "kimiK25", "sonnet", "gem31Pro", "grok", "opus"]),
  ("kimiK25", ["gem31Pro", "grok", "nano", "m25", "sonnet", "opus"]),
  ("glm5", ["m25", "grok", "kimiK25", "gem31Pro", "sonnet", "opus"]),
  ("sonnet", ["m25", "glm5", "kimiK25", "grok", "gem31Pro", "opus"]),
  ("opus", ["sonnet", "m25", "glm5", "kimiK25"])
]

/-- `ESCALATION_PATH`: `none` encodes the JS `null` entry for `opus`. -/
def ESCALATION_PATH : List (String × Option String) := [
  ("nano", some ("grok")),
  ("dsCoder", some ("m25")),
  ("gemFlash", some ("grok")),
  ("grok", some ("m25")),
  ("gem31Pro", some ("m25")),
  ("m25", some ("sonnet")),
  ("kimiK25", some ("sonnet")),
  ("glm5", some ("sonnet")),
  ("sonnet", some ("opus")),
  ("opus", none)
]

/-- `ESCALATION_PATH[k]`: `undefined` (absent) and `null` both collapse under
the JS `||` the callers apply, hence the double option. -/
def escalationPathEntry (modelKey : String) : Option (Option String) :=
  (ESCALATION_PATH.find? (fun p => p.1 == modelKey)).map (fun p => p.2)

/-- `ESCALATION_PATH[modelKey] || dflt`. -/
def escalationPathOr (modelKey : String) (dflt : String) : String :=
  match escalationPathEntry modelKey with
  | some (some next) => next
  | _ => dflt

def MULTIMODAL_FALLBACK_KEYS : List String :=
  ["kimiK25", "gem31Pro", "grok", "nano", "sonnet", "opus"]

/-- The alternatives of `HIGH_STAKES_ACTION_REGEX`; the surrounding
`\b(...)\b` applies to each alternative. -/
def HIGH_STAKES_ACTION_PHRASES : List String :=
  ["transfer", "wire", "send money", "payment", "pay", "purchase", "buy", "sell",
   "contract sign", "approve", "delete", "erase", "reset password", "share pii", "submit legal"]

def HIGH_STAKES_SYNONYMS : List String :=
  ["social security", "ssn", "bank account", "routing number", "medical record",
   "health data", "passport", "driver license", "tax return"]

def HIGH_STAKES_WEAK_SIGNALS : List String :=
  ["invoice", "contract", "legal", "health", "sensitive"]

/-! ### Configuration

server.js reads these once from the environment at startup; following the
design note of the spec they are passed explicitly as one value.  The string
fields hold the already-normalized values (`normalizeRoutingProfile`,
`normalizeCostMode`, `normalizeHighStakesConfirmMode` are surjections onto
the sets used below).  `forceModelId = none` models the empty
`ASTROLABE_FORCE_MODEL` (falsy in every guard that tests it). -/

structure Config where
  routingProfile : String := ("budget")
  costEfficiencyMode : String := ("strict")
  allowDirectPremiumModels : Bool := false
  enableSafetyGate : Bool := true
  highStakesConfirmMode : String := ("prompt")
  highStakesConfirmToken : String := ("confirm")
  allowHighStakesBudgetFloor : Bool := false
  forceModelId : Option String := none
deriving DecidableEq, Repr

/-! ### Safety gate -/

structure SafetyGateResult where
  triggered : Bool
  matchedSignals : List String
  actionLike : Bool
deriving DecidableEq, Repr

/-- The signal list of the `high_stakes` category (`CATEGORY_BY_ID.get("high_stakes")?.classifierSignals || []`). -/
def highStakesCategorySignals : List String :=
  match categoryById ("high_stakes") with
  | some c => c.classifierSignals
  | none => []

/-- `collectMatchedSignals(text, categorySignals)` inside `detectSafetyGate`. -/
def gateBaseMatches (text : String) : List String :=
  collectMatchedSignals text highStakesCategorySignals

/-- `HIGH_STAKES_SYNONYMS.filter(signal => new RegExp(...).test(text))`. -/
def gateSynonymMatches (text : String) : List String :=
  HIGH_STAKES_SYNONYMS.filter (fun s => containsTok (litP s) (lowerList text.toList))

/-- `HIGH_STAKES_ACTION_REGEX.test(text)`. -/
def gateActionLike (text : String) : Bool :=
  anyPhrase HIGH_STAKES_ACTION_PHRASES (lowerList text.toList)

/-- `baseMatches.filter(signal => !HIGH_STAKES_WEAK_SIGNALS.has(signal))`. -/
def gateStrongMatches (text : String) : List String :=
  (gateBaseMatches text).filter (fun s => !HIGH_STAKES_WEAK_SIGNALS.contains s)

/-- `baseMatches.filter(signal => HIGH_STAKES_WEAK_SIGNALS.has(signal))`. -/
def gateWeakMatches (text : String) : List String :=
  (gateBaseMatches text).filter (fun s => HIGH_STAKES_WEAK_SIGNALS.contains s)

/-- `detectSafetyGate` of server.js. -/
def detectSafetyGate (cfg : Config) (text : String) : SafetyGateResult :=
  if !cfg.enableSafetyGate then
    { triggered := false, matchedSignals := [], actionLike := false }
  else
    { triggered := gateActionLike text
        || decide (0 < (gateSynonymMatches text).length)
        || decide (0 < (gateStrongMatches text).length)
        || decide (2 ≤ (gateWeakMatches text).length),
      matchedSignals := dedupe (gateBaseMatches text ++ gateSynonymMatches text),
      actionLike := gateActionLike text }

end Astrolabe

namespace Astrolabe

/-! ### Conversation features and heuristic classification -/

structure Features where
  messageCount : Nat := 0
  userMessages : Nat := 0
  systemMessages : Nat := 0
  assistantMessages : Nat := 0
  toolMessages : Nat := 0
  hasMultimodal : Bool := false
  hasToolsDeclared : Bool := false
  approxChars : Nat := 0
  approxTokens : Nat := 0
deriving DecidableEq, Repr

def ONBOARDING_CHAT_PHRASES : List String :=
  ["name", "call me", "my name is", "nickname", "introduce", "introduction", "setup",
   "set up", "persona", "profile", "roleplay", "character", "identity", "who are you"]

def CASUAL_CHAT_PHRASES : List String :=
  ["hello", "hi", "hey", "thanks", "thank you", "good morning", "good evening",
   "nice to meet", "how are you"]

/-- Alternatives of `ARCHITECTURE_SIGNAL_REGEX` (`codebase[-\s]?wide` uses `sepOpt`). -/
def ARCHITECTURE_SIGNAL_PATS : List (List Tok) :=
  [litP ("architecture"), litP ("architect"), litP ("system design"), litP ("design doc"),
   litP ("scalability"), litP ("migrate"), litP ("migration"), litP ("distributed"),
   litP ("service boundaries"), litP ("module boundaries"),
   [Tok.lit ("codebase").toList, Tok.sepOpt, Tok.lit ("wide").toList]]

/-- Alternatives of `DEEP_ANALYSIS_SIGNAL_REGEX` (`sources?` is the two literal
alternatives, `deep[-\s]?analysis` etc. use `sepOpt`). -/
def DEEP_ANALYSIS_SIGNAL_PATS : List (List Tok) :=
  [[Tok.lit ("deep").toList, Tok.sepOpt, Tok.lit ("analysis").toList],
   [Tok.lit ("deep").toList, Tok.sepOpt, Tok.lit ("dive").toList],
   litP ("citation"), litP ("citations"), litP ("cite"), litP ("sources"), litP ("source"),
   litP ("comparison"), litP ("compare"), litP ("comparative"), litP ("competitive"),
   litP ("literature"), litP ("benchmark"),
   [Tok.lit ("trade").toList, Tok.sepOpt, Tok.lit ("off").toList],
   litP ("synthesize")]

def hasArchitectureSignals (text : String) : Bool :=
  anyPat ARCHITECTURE_SIGNAL_PATS (lowerList text.toList)

def hasDeepAnalysisSignals (text : String) : Bool :=
  anyPat DEEP_ANALYSIS_SIGNAL_PATS (lowerList text.toList)

/-- `isOnboardingLikeRequest` of server.js. -/
def isOnboardingLikeRequest (text : String) : Bool :=
  anyPhrase ONBOARDING_CHAT_PHRASES (lowerList (normalizeWhitespace text).toList)
    || anyPhrase CASUAL_CHAT_PHRASES (lowerList (normalizeWhitespace text).toList)

structure CatScore where
  id : String
  score : Nat
  matchedSignals : List String
deriving DecidableEq, Repr

/-- Stable insertion (descending by score): an element is placed before the
first strictly smaller score, matching the stable JS `sort((a, b) => b.score - a.score)`. -/
def insertScoreDesc (x : CatScore) : List CatScore → List CatScore
  | [] => [x]
  | y :: ys => if y.score < x.score then x :: y :: ys
      else y :: insertScoreDesc x ys

/-- Stable descending sort by score. -/
def sortScoresDesc : List CatScore → List CatScore
  | [] => []
  | x :: xs => insertScoreDesc x (sortScoresDesc xs)

/-- `scoreCategoriesWithSignals` of server.js. -/
def scoreCategoriesWithSignals (text : String) : List CatScore :=
  sortScoresDesc ((CATEGORY_POLICIES.filter (fun c => c.id != ("high_stakes"))).map
    (fun c =>
      let matched := collectMatchedSignals text c.classifierSignals
      { id := c.id, score := matched.length, matchedSignals := matched }))

/-- `heuristicCategoryFallback` of server.js: the ordered regex cascade. -/
def heuristicCategoryFallback (text : String) (features : Features) : String :=
  let hasTools := features.hasToolsDeclared || decide (0 < features.toolMessages)
  let lt := lowerList text.toList
  if hasTools then ("core_loop")
  else if anyPhrase ["code", "debug", "refactor", "test", "function", "script", "stack trace", "exception"] lt then ("coding")
  else if anyPhrase ["summarize", "summary", "extract", "action items", "digest", "invoice", "receipt"] lt then ("summarization")
  else if anyPhrase ["plan", "roadmap", "schedule", "itinerary", "steps", "break down"] lt then ("planning")
  else if anyPhrase ["web", "search", "lookup", "find", "calendar", "email", "weather", "stock"] lt then ("retrieval")
  else if anyPhrase ["research", "analysis", "compare", "literature", "report", "due diligence"] lt then ("research")
  else if anyPhrase ["creative", "story", "poem", "brainstorm", "copywriting", "campaign"] lt then ("creative")
  else if anyPhrase ["reply", "message", "chat", "customer support", "email response", "negotiat"] lt then ("communication")
  else if anyPhrase ["browser", "automation", "shell", "git", "workflow", "pipeline", "checkout"] lt then ("orchestration")
  else if anyPhrase ["reflect", "stuck", "loop", "failure analysis", "improve"] lt then ("reflection")
  else if anyPhrase ["heartbeat", "ping", "status", "health check", "keep-alive"] lt then ("heartbeat")
  else if isOnboardingLikeRequest text then ("communication")
  else ("communication")

/-- Alternatives of the forced-critical vocabulary regex
(`mission[- ]critical` uses `sepSpaceDashOne`). -/
def CRITICAL_VOCAB_PATS : List (List Tok) :=
  [litP ("production outage"), litP ("incident"), litP ("root cause"), litP ("irreversible"),
   [Tok.lit ("mission").toList, Tok.sepSpaceDashOne, Tok.lit ("critical").toList],
   litP ("compliance")]

def COMPLEX_VOCAB_PHRASES : List String :=
  ["multi-step", "multi constraint", "algorithm", "architecture", "deep dive",
   "synthesize", "long-form"]

def LEGAL_NOUN_PHRASES : List String := ["legal", "contract"]

def BINDING_VERB_PHRASES : List String :=
  ["sign", "approve", "execute", "submit", "file", "binding", "finalize", "enforce"]

/-- `heuristicComplexity` of server.js. -/
def heuristicComplexity (text : String) (features : Features) (categoryId : String)
    (safetyGate : SafetyGateResult) : String :=
  let normalized := normalizeWhitespace text
  let lt := lowerList normalized.toList
  let hasTools := features.hasToolsDeclared || decide (0 < features.toolMessages)
  let shortPrompt := decide (0 < normalized.length) && decide (normalized.length ≤ 240)
  if categoryId == ("high_stakes") then ("critical")
  else if safetyGate.actionLike then ("critical")
  else if shortPrompt && !hasTools && isOnboardingLikeRequest normalized then ("simple")
  else if shortPrompt && !hasTools
      && (["communication", "creative", "heartbeat"].contains categoryId) then ("simple")
  else if decide (12000 ≤ features.approxTokens) || decide (24 ≤ features.messageCount) then ("critical")
  else if decide (4500 ≤ features.approxTokens) || decide (14 ≤ features.messageCount) then ("complex")
  else if features.hasMultimodal && decide (1200 ≤ features.approxTokens) then ("complex")
  else if anyPat CRITICAL_VOCAB_PATS lt then ("critical")
  else if anyPhrase LEGAL_NOUN_PHRASES lt && anyPhrase BINDING_VERB_PHRASES lt then ("critical")
  else if anyPhrase COMPLEX_VOCAB_PHRASES lt then ("complex")
  else if decide (features.approxTokens ≤ 280) && !features.hasMultimodal
      && !features.hasToolsDeclared then ("simple")
  else ("standard")

structure Classification where
  categoryId : String
  complexity : String
  confidence : Nat
  reason : String
  matchedSignals : List String
  highStakes : Bool
  source : String
deriving DecidableEq, Repr

/-- `heuristicClassification` of server.js. -/
def heuristicClassification (lastUserMessage recentContext : String) (features : Features)
    (safetyGate : SafetyGateResult) : Classification :=
  let text := lastUserMessage ++ ("\n") ++ recentContext
  if safetyGate.triggered then
    { categoryId := ("high_stakes"), complexity := ("critical"), confidence := 5,
      reason := ("Safety gate matched high-stakes signals: ")
        ++ jsOrStr (String.intercalate (", ") safetyGate.matchedSignals) ("action-like request") ++ ("."),
      matchedSignals := safetyGate.matchedSignals, highStakes := true, source := ("safety_gate") }
  else
    let scores := scoreCategoriesWithSignals text
    match scores.head? with
    | some top =>
      if 0 < top.score then
        { categoryId := top.id,
          complexity := heuristicComplexity text features top.id safetyGate,
          confidence := min 5 (2 + top.score),
          reason := ("Signal heuristic matched ") ++ toString top.score ++ (" category cues."),
          matchedSignals := top.matchedSignals, highStakes := false, source := ("heuristic") }
      else
        let categoryId := heuristicCategoryFallback text features
        { categoryId := categoryId,
          complexity := heuristicComplexity text features categoryId safetyGate,
          confidence := 2,
          reason := ("No strong category signal; used fallback category heuristic."),
          matchedSignals := top.matchedSignals, highStakes := false, source := ("heuristic") }
    | none =>
      let categoryId := heuristicCategoryFallback text features
      { categoryId := categoryId,
        complexity := heuristicComplexity text features categoryId safetyGate,
        confidence := 2,
        reason := ("No strong category signal; used fallback category heuristic."),
        matchedSignals := [], highStakes := false, source := ("heuristic") }

end Astrolabe

namespace Astrolabe

/-! ### JSON values and the parse cascade

`tryParseJson` models `JSON.parse`-or-null.  Numbers are modelled as integers
(optional sign and decimal digits); fractional and exponent literals are
outside the model — no claim exercises them, and JS doubles would not embed
exactly anyway.  Coercion of arrays/objects to strings is likewise collapsed
to a placeholder that matches no enumeration value. -/

inductive Json where
  | null : Json
  | bool : Bool → Json
  | num : Int → Json
  | str : String → Json
  | arr : List Json → Json
  | obj : List (String × Json) → Json

def lbrace : Char := Char.ofNat 123

def rbrace : Char := Char.ofNat 125

def skipJsonWs (cs : List Char) : List Char :=
  cs.dropWhile (fun c => c == ' ' || c == '\t' || c == '\n' || c == '\r')

def parseHexDigit (c : Char) : Option Nat :=
  if c.isDigit then some (c.toNat - 48)
  else if 'a' ≤ c && c ≤ 'f' then some (c.toNat - 87)
  else if 'A' ≤ c && c ≤ 'F' then some (c.toNat - 55)
  else none

/-- JSON string body after the opening quote (fuel = remaining length). -/
def parseJsonStringAux : Nat → List Char → List Char → Option (String × List Char)
  | 0, _, _ => none
  | fuel + 1, acc, cs =>
    match cs with
    | [] => none
    | c :: rest =>
      if c == '"' then some (String.mk acc.reverse, rest)
      else if c == '\\' then
        match rest with
        | [] => none
        | e :: rest2 =>
          if e == '"' || e == '\\' || e == '/' then parseJsonStringAux fuel (e :: acc) rest2
          else if e == 'b' then parseJsonStringAux fuel ('\x08' :: acc) rest2
          else if e == 'f' then parseJsonStringAux fuel ('\x0c' :: acc) rest2
          else if e == 'n' then parseJsonStringAux fuel ('\n' :: acc) rest2
          else if e == 'r' then parseJsonStringAux fuel ('\r' :: acc) rest2
          else if e == 't' then parseJsonStringAux fuel ('\t' :: acc) rest2
          else if e == 'u' then
            match rest2 with
            | h1 :: h2 :: h3 :: h4 :: rest3 =>
              match parseHexDigit h1, parseHexDigit h2, parseHexDigit h3, parseHexDigit h4 with
              | some a, some b, some c2, some d =>
                let n := ((a * 16 + b) * 16 + c2) * 16 + d
                if 0xd800 ≤ n && n ≤ 0xdfff then none
                else parseJsonStringAux fuel (Char.ofNat n :: acc) rest3
              | _, _, _, _ => none
            | _ => none
          else none
      else if c.toNat < 32 then none
      else parseJsonStringAux fuel (c :: acc) rest

def parseJsonString (cs : List Char) : Option (String × List Char) :=
  parseJsonStringAux (cs.length + 1) [] cs

def digitsToNat (ds : List Char) : Nat :=
  ds.foldl (fun acc c => acc * 10 + (c.toNat - 48)) 0

/-- JSON number (integer-only model): optional minus, then `0` or a nonzero
digit run; a following `.`, `e` or `E` fails the parse. -/
def parseJsonNumber (cs : List Char) : Option (Json × List Char) :=
  let neg := match cs with
    | c :: _ => c == '-'
    | [] => false
  let cs1 := if neg then cs.drop 1 else cs
  let digits := cs1.takeWhile Char.isDigit
  let rest := cs1.dropWhile Char.isDigit
  if digits.isEmpty then none
  else if 1 < digits.length && digits.head? == some ('0') then none
  else
    match rest with
    | c :: _ =>
      if c == '.' || c == 'e' || c == 'E' then none
      else some (Json.num (if neg then -(digitsToNat digits : Int) else (digitsToNat digits : Int)), rest)
    | [] => some (Json.num (if neg then -(digitsToNat digits : Int) else (digitsToNat digits : Int)), rest)

mutual

def parseJsonValue : Nat → List Char → Option (Json × List Char)
  | 0, _ => none
  | fuel + 1, cs0 =>
    let cs := skipJsonWs cs0
    match cs with
    | [] => none
    | c :: _ =>
      if c == 'n' then (stripLit ("null").toList cs).map (fun r => (Json.null, r))
      else if c == 't' then (stripLit ("true").toList cs).map (fun r => (Json.bool true, r))
      else if c == 'f' then (stripLit ("false").toList cs).map (fun r => (Json.bool false, r))
      else if c == '"' then (parseJsonString (cs.drop 1)).map (fun p => (Json.str p.1, p.2))
      else if c == '[' then
        match skipJsonWs (cs.drop 1) with
        | c2 :: rest2 =>
          if c2 == ']' then some (Json.arr [], rest2)
          else
            match parseJsonArrayItems fuel (c2 :: rest2) with
            | some (items, r) => some (Json.arr items, r)
            | none => none
        | [] => none
      else if c == lbrace then
        match skipJsonWs (cs.drop 1) with
        | c2 :: rest2 =>
          if c2 == rbrace then some (Json.obj [], rest2)
          else
            match parseJsonObjectItems fuel (c2 :: rest2) with
            | some (members, r) => some (Json.obj members, r)
            | none => none
        | [] => none
      else parseJsonNumber cs

/-- One or more comma-separated values, then `]`. -/
def parseJsonArrayItems : Nat → List Char → Option (List Json × List Char)
  | 0, _ => none
  | fuel + 1, cs =>
    match parseJsonValue fuel cs with
    | none => none
    | some (v, rest) =>
      match skipJsonWs rest with
      | ',' :: rest2 =>
        match parseJsonArrayItems fuel rest2 with
        | some (items, r) => some (v :: items, r)
        | none => none
      | ']' :: rest2 => some ([v], rest2)
      | _ => none

/-- One or more comma-separated `"key": value` pairs, then the closing brace. -/
def parseJsonObjectItems : Nat → List Char → Option (List (String × Json) × List Char)
  | 0, _ => none
  | fuel + 1, cs =>
    match skipJsonWs cs with
    | '"' :: rest =>
      match parseJsonString rest with
      | none => none
      | some (key, rest2) =>
        match skipJsonWs rest2 with
        | ':' :: rest3 =>
          match parseJsonValue fuel rest3 with
          | none => none
          | some (v, rest4) =>
            match skipJsonWs rest4 with
            | ',' :: rest5 =>
              match parseJsonObjectItems fuel rest5 with
              | some (members, r) => some ((key, v) :: members, r)
              | none => none
            | c :: rest5 =>
              if c == rbrace then some ([(key, v)], rest5) else none
            | [] => none
        | _ => none
    | _ => none

end

/-- `tryParseJson` of server.js: `JSON.parse` returning `none` on failure. -/
def tryParseJson (text : String) : Option Json :=
  let cs := text.toList
  match parseJsonValue (cs.length + 1) cs with
  | some (v, rest) => if (skipJsonWs rest).isEmpty then some v else none
  | none => none

/-- Property read on a parsed value: last duplicate key wins, like JS objects. -/
def jsonLookup (members : List (String × Json)) (key : String) : Option Json :=
  ((members.filter (fun p => p.1 == key)).getLast?).map (fun p => p.2)

def jsonTruthy : Json → Bool
  | Json.null => false
  | Json.bool b => b
  | Json.num n => n != 0
  | Json.str s => s != ("")
  | Json.arr _ => true
  | Json.obj _ => true

/-- `typeof x === "object"` for a parsed value (arrays included, with no
readable named properties). -/
def jsObjectMembers : Json → Option (List (String × Json))
  | Json.obj members => some members
  | Json.arr _ => some []
  | _ => none

/-- JS `String(x)` on a parsed value (composite values collapse to a
placeholder matching no enumeration value). -/
def jsToStringCoerce : Json → String
  | Json.null => ("null")
  | Json.bool b => if b then ("true") else ("false")
  | Json.num n => toString n
  | Json.str s => s
  | Json.arr _ => ("[array value]")
  | Json.obj _ => ("[object Object]")

/-- JS `String(x || "")` where `x` is an optional parsed value. -/
def jsStringOrEmptyCoerce (v : Option Json) : String :=
  match v with
  | none => ("")
  | some j => if jsonTruthy j then jsToStringCoerce j else ("")

/-- JS `x || d` on an optional parsed value. -/
def jsonOrDefault (v : Option Json) (d : Json) : Json :=
  match v with
  | none => d
  | some j => if jsonTruthy j then j else d

/-- Integer-only model of JS `Number(s)` for strings. -/
def strToNumberInt (s : String) : Option Int :=
  let t := (jsTrim s).toList
  match t with
  | [] => some 0
  | c :: rest =>
    let neg := c == '-'
    let ds := if neg || c == '+' then rest else t
    if ds.isEmpty then none
    else if ds.all Char.isDigit then some (if neg then -(digitsToNat ds : Int) else (digitsToNat ds : Int))
    else none

/-- JS `Number(x)` on a parsed value (`none` is NaN). -/
def jsToNumber : Json → Option Int
  | Json.null => some 0
  | Json.bool b => some (if b then 1 else 0)
  | Json.num n => some n
  | Json.str s => strToNumberInt s
  | Json.arr _ => none
  | Json.obj _ => none

/-- `parseScore` of server.js applied to an optional parsed value
(`Math.round` is the identity on the integer model). -/
def parseScore (v : Option Json) (fallback : Nat) : Nat :=
  match v with
  | none => fallback
  | some j =>
    match jsToNumber j with
    | none => fallback
    | some n => Int.toNat (max 1 (min 5 n))

/-- `normalizeCategoryId` of server.js (on an already-coerced string). -/
def normalizeCategoryId (raw : String) : Option String :=
  let value := String.mk ((lowerList (jsTrim raw).toList).map
    (fun c => if c == ' ' || c == '-' then '_' else c))
  if (categoryById value).isSome then some value else none

/-- `normalizeComplexity` of server.js (on an already-coerced string). -/
def normalizeComplexity (raw : String) : Option String :=
  let value := jsLower (jsTrim raw)
  if COMPLEXITY_ORDER.contains value then some value
  else if value == ("routine") || value == ("low") then some ("simple")
  else if value == ("medium") || value == ("moderate") then some ("standard")
  else if value == ("hard") || value == ("high") then some ("complex")
  else none

/-- Brace-depth scan of `extractFirstJsonObject` (naive, string-unaware, like
the source). -/
def braceScanAux : Nat → List Char → List Char → Option (List Char)
  | _, _, [] => none
  | depth, acc, c :: rest =>
    let d1 := if c == lbrace then depth + 1 else depth
    if c == rbrace then
      if d1 == 1 then some (c :: acc).reverse
      else braceScanAux (d1 - 1) (c :: acc) rest
    else braceScanAux d1 (c :: acc) rest

/-- `extractFirstJsonObject` of server.js. -/
def extractFirstJsonObject (raw : String) : Option String :=
  let tail := raw.toList.dropWhile (fun c => c != lbrace)
  match tail with
  | [] => none
  | _ => (braceScanAux 0 [] tail).map String.mk

/-- Leftmost word-bounded occurrence of one of the alternatives (the
`match(...)` fallback scans of the two parsers), on lowercased text. -/
def looseFindFirstAux (alternatives : List String) : Bool → List Char → Option String
  | _, [] => none
  | prevWord, c :: rest =>
    match (if !prevWord then alternatives.find? (fun a => matchesHere (litP a) (c :: rest)) else none) with
    | some a => some a
    | none => looseFindFirstAux alternatives (isWordChar c) rest

def looseFindFirst (alternatives : List String) (text : String) : Option String :=
  looseFindFirstAux alternatives false (lowerList text.toList)

structure ParsedClassification where
  categoryId : String
  complexity : String
  confidence : Nat
  reason : String
  matchedSignals : List String
  highStakes : Bool
deriving DecidableEq, Repr

/-- `direct || tryParseJson(extractFirstJsonObject(raw) || "")` followed by the
`embedded && typeof embedded === "object"` test, shared by both parsers. -/
def parsedObjectMembers (raw : String) : Option (List (String × Json)) :=
  let direct := tryParseJson raw
  let embedded : Option Json :=
    match direct with
    | some j =>
      if jsonTruthy j then some j
      else tryParseJson ((extractFirstJsonObject raw).getD (""))
    | none => tryParseJson ((extractFirstJsonObject raw).getD (""))
  match embedded with
  | some j => if jsonTruthy j then jsObjectMembers j else none
  | none => none

/-- `parseClassifierOutput` of server.js. -/
def parseClassifierOutput (raw : String) : Option ParsedClassification :=
  let fromObject : Option ParsedClassification :=
    match parsedObjectMembers raw with
    | some members =>
      match normalizeCategoryId (jsStringOrEmptyCoerce (jsonLookup members ("category"))),
            normalizeComplexity (jsStringOrEmptyCoerce (jsonLookup members ("complexity"))) with
      | some categoryId, some complexity =>
        some { categoryId := categoryId, complexity := complexity,
               confidence := parseScore (jsonLookup members ("confidence")) 3,
               reason := normalizeWhitespace (jsToStringCoerce
                 (jsonOrDefault (jsonLookup members ("reason")) (Json.str ("Model classifier.")))),
               matchedSignals :=
                 (match jsonLookup members ("matched_signals") with
                  | some (Json.arr xs) => dedupe (xs.map (fun x => jsLower (jsSlice (jsToStringCoerce x) 48)))
                  | _ => []),
               highStakes :=
                 (match jsonLookup members ("high_stakes") with
                  | some j => jsonTruthy j
                  | none => false) }
      | _, _ => none
    | none => none
  match fromObject with
  | some p => some p
  | none =>
    match looseFindFirst CATEGORY_IDS raw, looseFindFirst COMPLEXITY_ORDER raw with
    | some catTok, some cxTok =>
      match normalizeCategoryId catTok, normalizeComplexity cxTok with
      | some categoryId, some complexity =>
        some { categoryId := categoryId, complexity := complexity, confidence := 3,
               reason := ("Classifier parsed from loose text."), matchedSignals := [],
               highStakes := categoryId == ("high_stakes") }
      | _, _ => none
    | _, _ => none

/-- The loose self-check scan `/\b([1-5])\b\s*[:|-]?\s*(.{0,180})/`: the first
word-bounded score digit and the captured remainder. -/
def looseScoreAux : Bool → List Char → Option (Char × String)
  | _, [] => none
  | prevWord, c :: rest =>
    if !prevWord && (c == '1' || c == '2' || c == '3' || c == '4' || c == '5')
        && boundaryAfter rest then
      let r1 := rest.dropWhile jsWhitespace
      let r2 := match r1 with
        | d :: r => if d == ':' || d == '|' || d == '-' then r else r1
        | [] => []
      let r3 := r2.dropWhile jsWhitespace
      some (c, String.mk ((r3.takeWhile (fun ch => ch != '\n' && ch != '\r')).take 180))
    else looseScoreAux (isWordChar c) rest

def looseScore (raw : String) : Option (Char × String) :=
  looseScoreAux false raw.toList

structure SelfCheckParsed where
  score : Nat
  reason : String
deriving DecidableEq, Repr

/-- `parseSelfCheckOutput` of server.js: never fails, defaulting to score 4. -/
def parseSelfCheckOutput (raw : String) : SelfCheckParsed :=
  match parsedObjectMembers raw with
  | some members =>
    { score := parseScore (jsonLookup members ("score")) 4,
      reason := normalizeWhitespace (jsToStringCoerce
        (jsonOrDefault (jsonLookup members ("reason")) (Json.str ("Self-check scored by model.")))) }
  | none =>
    match looseScore raw with
    | some (d, tailText) =>
      { score := parseScore (some (Json.str (String.mk [d]))) 4,
        reason := normalizeWhitespace (jsOrStr tailText ("Self-check parsed from loose text.")) }
    | none => { score := 4, reason := ("Self-check parse fallback (score=4).") }

end Astrolabe

namespace Astrolabe

/-! ### Judge calls (classifier / self-check) -/

/-- Outcome of a judge-backend call chain, abstracted to the thrown error or
the answering model id plus message content. -/
inductive JudgeOutcome where
  | err : String → JudgeOutcome
  | ok : String → String → JudgeOutcome

/-- `classifyRequest` of server.js with the judge-backend call abstracted to
its outcome.  The heuristic path consumes no outcome at all. -/
def classifyRequest (cfg : Config) (lastUserMessage recentContext : String)
    (features : Features) (safetyGate : SafetyGateResult) (judge : JudgeOutcome) : Classification :=
  let heuristic := heuristicClassification lastUserMessage recentContext features safetyGate
  if safetyGate.triggered then heuristic
  else if cfg.forceModelId.isSome then
    { heuristic with
      reason := ("ASTROLABE_FORCE_MODEL is set; classifier bypassed.")
      source := ("forced_model") }
  else
    match judge with
    | JudgeOutcome.err message =>
      { heuristic with
        reason := ("Classifier error fallback: ") ++ jsSlice (jsOrStr message ("Unknown error")) 120
        source := ("heuristic_on_classifier_error") }
    | JudgeOutcome.ok modelId content =>
      let raw := normalizeWhitespace content
      match parseClassifierOutput raw with
      | none =>
        { heuristic with
          reason := ("Classifier parse fallback to heuristic.")
          source := ("heuristic_fallback") }
      | some parsed =>
        { categoryId := if parsed.highStakes then ("high_stakes") else parsed.categoryId,
          complexity := if parsed.highStakes then ("critical") else parsed.complexity,
          confidence := parsed.confidence,
          reason := jsOrStr parsed.reason ("Classifier model output."),
          matchedSignals := parsed.matchedSignals,
          highStakes := parsed.highStakes,
          source := ("model:") ++ modelId }

structure SelfCheckResult where
  score : Nat
  reason : String
  source : String
deriving DecidableEq, Repr

/-- `runSelfCheck` of server.js with the judge-backend call abstracted to its
outcome; total, never raises. -/
def runSelfCheck (lastUserMessage assistantText : String) (judge : JudgeOutcome) : SelfCheckResult :=
  match judge with
  | JudgeOutcome.err message =>
    { score := 4,
      reason := ("Self-check skipped on error: ") ++ jsSlice (jsOrStr message ("unknown")) 120,
      source := ("fallback") }
  | JudgeOutcome.ok modelId content =>
    let parsed := parseSelfCheckOutput (normalizeWhitespace content)
    { score := parsed.score, reason := parsed.reason, source := modelId }

/-! ### Routing resolver -/

@[ext]
structure RouteDecision where
  categoryId : String
  complexity : String
  adjustedComplexity : String
  modelKey : Option String
  modelId : Option String
  label : String
  rule : String
  injectionRisk : String
  safetyGateTriggered : Bool
deriving DecidableEq, Repr

/-- `riskRank` of server.js. -/
def riskRank (risk : String) : Nat :=
  if risk == ("CRITICAL") then 5
  else if risk == ("HIGH") then 4
  else if risk == ("MEDIUM-HIGH") then 3
  else if risk == ("MEDIUM") then 2
  else 1

/-- JS `Array.prototype.indexOf` (−1 when absent). -/
def jsIndexOf (xs : List String) (x : String) : Int :=
  match xs.findIdx? (fun y => y == x) with
  | some n => (n : Int)
  | none => -1

/-- `shiftComplexity` of server.js: shift the index along `COMPLEXITY_ORDER`,
clamped to the ends. -/
def shiftComplexity (complexity : String) (delta : Int) : String :=
  let index := jsIndexOf COMPLEXITY_ORDER complexity
  if index < 0 then complexity
  else
    let next := Int.toNat (max 0 (min ((COMPLEXITY_ORDER.length : Int) - 1) (index + delta)))
    COMPLEXITY_ORDER.getD next complexity

/-- `applyRoutingProfile` of server.js. -/
def applyRoutingProfile (cfg : Config) (complexity categoryId : String) : String :=
  if !COMPLEXITY_ORDER.contains complexity then ("standard")
  else if cfg.routingProfile == ("quality") then shiftComplexity complexity 1
  else if cfg.routingProfile == ("budget") then
    match categoryById categoryId with
    | none => complexity
    | some category =>
      if 3 ≤ riskRank category.injectionRisk then complexity
      else shiftComplexity complexity (-1)
  else complexity

structure CategoryRoute where
  categoryId : String
  modelKey : String
  modelId : Option String
  label : String
  rule : String
deriving DecidableEq, Repr

/-- The `route` helper local to `resolveCategoryRoute`. -/
def mkRoute (categoryId modelKey label rule : String) : CategoryRoute :=
  { categoryId := categoryId, modelKey := modelKey, modelId := modelIdForKey modelKey,
    label := label, rule := rule }

/-- `resolveCategoryRoute` of server.js: the static per-category × complexity
policy table. -/
def resolveCategoryRoute (cfg : Config) (categoryId complexity : String) : CategoryRoute :=
  if categoryId == ("heartbeat") then
    if complexity == ("simple") then mkRoute categoryId ("nano") ("DEFAULT") ("Simple ping / status")
    else if complexity == ("standard") then mkRoute categoryId ("grok") ("BUDGET") ("Context compaction / memory management")
    else mkRoute categoryId ("m25") ("VALUE") ("Complex health diagnostics")
  else if categoryId == ("core_loop") then
    if complexity == ("critical") then mkRoute categoryId ("opus") ("ESCALATE") ("Ultra-critical / long-horizon planning")
    else if complexity == ("simple") then mkRoute categoryId ("grok") ("BUDGET") ("Simple tool call")
    else mkRoute categoryId ("m25") ("DEFAULT") ("Standard and complex tool chains")
  else if categoryId == ("retrieval") then
    if complexity == ("critical") then mkRoute categoryId ("opus") ("ESCALATE") ("High-stakes retrieval")
    else if complexity == ("simple") then mkRoute categoryId ("nano") ("DEFAULT") ("Simple lookup")
    else mkRoute categoryId ("m25") ("VALUE") ("Fetch and synthesize across sources")
  else if categoryId == ("summarization") then
    if complexity == ("critical") then mkRoute categoryId ("opus") ("ESCALATE") ("Ultra-critical legal/financial summarization")
    else if complexity == ("simple") then mkRoute categoryId ("nano") ("DEFAULT") ("Short input simple extraction")
    else if complexity == ("complex") then mkRoute categoryId ("gem31Pro") ("MID-TIER") ("Long input or high-precision multimodal extraction")
    else mkRoute categoryId ("m25") ("VALUE") ("Medium text summarization and extraction")
  else if categoryId == ("planning") then
    if complexity == ("critical") then mkRoute categoryId ("opus") ("ESCALATE") ("Mission-critical planning")
    else if complexity == ("simple") then mkRoute categoryId ("grok") ("DEFAULT") ("Routine planning")
    else mkRoute categoryId ("m25") ("VALUE") ("Multi-constraint planning")
  else if categoryId == ("orchestration") then
    if complexity == ("critical") then mkRoute categoryId ("opus") ("ESCALATE") ("High-stakes recovery orchestration")
    else if complexity == ("simple") then mkRoute categoryId ("grok") ("BUDGET") ("Simple repetitive orchestration")
    else mkRoute categoryId ("m25") ("DEFAULT") ("Standard and complex automation chains")
  else if categoryId == ("coding") then
    if complexity == ("critical") then mkRoute categoryId ("opus") ("ESCALATE") ("Large refactors / production-critical")
    else if complexity == ("simple") then mkRoute categoryId ("dsCoder") ("BUDGET") ("Quick script / small fix")
    else mkRoute categoryId ("m25") ("DEFAULT") ("Standard and complex feature implementation / debugging")
  else if categoryId == ("research") then
    if complexity == ("critical") then mkRoute categoryId ("opus") ("ESCALATE") ("Ultra-high-stakes synthesis")
    else if complexity == ("simple") then mkRoute categoryId ("grok") ("DEFAULT") ("Routine research and lightweight analysis")
    else mkRoute categoryId ("m25") ("DEFAULT") ("Deep text-heavy synthesis and comparative analysis")
  else if categoryId == ("creative") then
    if complexity == ("critical") then mkRoute categoryId ("opus") ("ESCALATE") ("Professional long-form creative campaigns")
    else if complexity == ("simple") then mkRoute categoryId ("grok") ("DEFAULT") ("Brainstorming and playful ideation")
    else mkRoute categoryId ("m25") ("VALUE") ("High-quality style adherence")
  else if categoryId == ("communication") then
    if complexity == ("critical") then mkRoute categoryId ("opus") ("ESCALATE") ("Sensitive negotiation / legal / crisis messaging")
    else if complexity == ("simple") then mkRoute categoryId ("grok") ("DEFAULT") ("Casual messaging")
    else mkRoute categoryId ("m25") ("VALUE") ("Professional communication")
  else if categoryId == ("reflection") then
    if complexity == ("critical") then mkRoute categoryId ("opus") ("ESCALATE") ("Critical stuck-state recovery")
    else if complexity == ("simple") then mkRoute categoryId ("grok") ("DEFAULT") ("Routine reflection")
    else mkRoute categoryId ("m25") ("VALUE") ("Serious failure analysis")
  else if categoryId == ("high_stakes") then
    if cfg.allowHighStakesBudgetFloor && cfg.routingProfile == ("budget") then
      mkRoute categoryId ("sonnet") ("FLOOR") ("Budget forced floor with strict follow-up checks")
    else mkRoute categoryId ("opus") ("ALWAYS") ("Safety gate hard-route")
  else mkRoute categoryId ("m25") ("VALUE") ("Unknown category fallback")

/-- `resolveRouteDecision` of server.js. -/
def resolveRouteDecision (cfg : Config) (classification : Classification)
    (safetyGate : SafetyGateResult) : RouteDecision :=
  match cfg.forceModelId with
  | some forcedId =>
    { categoryId := classification.categoryId,
      complexity := classification.complexity,
      adjustedComplexity := classification.complexity,
      modelKey := none, modelId := some forcedId,
      label := ("FORCED"), rule := ("ASTROLABE_FORCE_MODEL override"),
      injectionRisk :=
        (match categoryById classification.categoryId with
         | some c => c.injectionRisk
         | none => ("UNKNOWN")),
      safetyGateTriggered := safetyGate.triggered }
  | none =>
    let categoryId := (normalizeCategoryId classification.categoryId).getD ("communication")
    let baseComplexity := (normalizeComplexity classification.complexity).getD ("standard")
    let adjustedComplexity := applyRoutingProfile cfg baseComplexity categoryId
    let route := resolveCategoryRoute cfg categoryId adjustedComplexity
    { categoryId := categoryId, complexity := baseComplexity,
      adjustedComplexity := adjustedComplexity,
      modelKey := some route.modelKey, modelId := route.modelId,
      label := route.label, rule := route.rule,
      injectionRisk :=
        (match categoryById categoryId with
         | some c => c.injectionRisk
         | none => ("UNKNOWN")),
      safetyGateTriggered := safetyGate.triggered }

/-! ### Cost guardrail -/

/-- `withRoutedModel` of server.js: identity when the key does not resolve;
otherwise rewrites the model and appends the reason to the rule trail. -/
def withRoutedModel (routeDecision : RouteDecision) (modelKey label guardrailReason : String) : RouteDecision :=
  match modelIdForKey modelKey with
  | none => routeDecision
  | some modelId =>
    { routeDecision with
      modelKey := some modelKey
      modelId := some modelId
      label := jsOrStr label routeDecision.label
      rule := routeDecision.rule ++ ("; ") ++ guardrailReason }

/-- `valueTierModelForCategory` of server.js. -/
def valueTierModelForCategory (categoryId : String) : String := ("m25")

structure BudgetTarget where
  modelKey : String
  reason : String
deriving DecidableEq, Repr

/-- `strictBudgetTarget` of server.js (the `requestText` the guardrail packs
into the feature object is an explicit argument here). -/
def strictBudgetTarget (routeDecision : RouteDecision) (features : Features)
    (requestText : String) : BudgetTarget :=
  let categoryId := jsOrStr routeDecision.categoryId ("communication")
  let complexity := jsOrStr (jsOrStr routeDecision.adjustedComplexity routeDecision.complexity) ("standard")
  let hasTools := features.hasToolsDeclared || decide (0 < features.toolMessages)
  let toolMessages := features.toolMessages
  let hasMultimodal := features.hasMultimodal
  let approxTokens := features.approxTokens
  let requestTextN := normalizeWhitespace requestText
  let hasArchSignals := hasArchitectureSignals requestTextN
  let hasDeepSignals := hasDeepAnalysisSignals requestTextN
  if complexity == ("critical") then
    if hasMultimodal then
      if 30000 ≤ approxTokens then
        { modelKey := ("gem31Pro"), reason := ("critical multimodal requests with very long context use mid-tier multimodal model") }
      else { modelKey := ("kimiK25"), reason := ("critical multimodal requests default to multimodal specialist") }
    else if categoryId == ("coding") && 8000 ≤ approxTokens && hasArchSignals then
      { modelKey := ("glm5"), reason := ("critical large-context coding uses engineering specialist") }
    else if (["research", "planning", "reflection"].contains categoryId)
        && 12000 ≤ approxTokens && hasDeepSignals then
      { modelKey := ("glm5"), reason := ("critical large-context analytical tasks use engineering specialist") }
    else { modelKey := ("m25"), reason := ("critical non-high-stakes requests are capped at M2.5") }
  else if complexity == ("complex") then
    if hasMultimodal then
      if 30000 ≤ approxTokens then
        { modelKey := ("gem31Pro"), reason := ("complex multimodal requests with very long context use mid-tier multimodal model") }
      else { modelKey := ("kimiK25"), reason := ("complex multimodal requests default to multimodal specialist") }
    else if categoryId == ("coding") && 8000 ≤ approxTokens && hasArchSignals then
      { modelKey := ("glm5"), reason := ("complex large-context coding uses engineering specialist") }
    else if (["research", "planning", "reflection"].contains categoryId)
        && 12000 ≤ approxTokens && hasDeepSignals then
      { modelKey := ("glm5"), reason := ("complex large-context analytical tasks use engineering specialist") }
    else { modelKey := ("m25"), reason := ("complex non-high-stakes requests default to M2.5") }
  else if complexity == ("standard") then
    if hasMultimodal then
      { modelKey := ("kimiK25"), reason := ("standard multimodal requests default to multimodal specialist") }
    else if hasTools && (["core_loop", "orchestration"].contains categoryId)
        && approxTokens ≤ 3000 && toolMessages ≤ 2 then
      { modelKey := ("grok"), reason := ("light tool-use for core loop/orchestration stays on budget model") }
    else { modelKey := ("m25"), reason := ("standard non-multimodal requests default to M2.5") }
  else if categoryId == ("heartbeat") then
    { modelKey := ("nano"), reason := ("heartbeat traffic pinned to nano") }
  else if categoryId == ("retrieval") then
    { modelKey := ("nano"), reason := ("routine retrieval stays on nano") }
  else if categoryId == ("summarization") then
    if hasMultimodal then
      { modelKey := ("kimiK25"), reason := ("routine multimodal summarization starts on multimodal specialist") }
    else { modelKey := ("nano"), reason := ("routine summarization/extraction stays on nano") }
  else if categoryId == ("coding") then
    { modelKey := if hasTools then ("grok") else ("dsCoder"),
      reason := if hasTools then ("routine tool-assisted coding starts on Grok")
        else ("routine coding starts on DeepSeek Coder") }
  else { modelKey := ("grok"), reason := ("default strict budget model") }

/-- First `next` rewrite of `applyCostGuardrails`: onboarding/chit-chat
traffic is forced to the budget model. -/
def onboardingStep (d : RouteDecision) (requestText : String) (hasTools : Bool) : RouteDecision :=
  if isOnboardingLikeRequest requestText && !hasTools then
    withRoutedModel d ("grok") ("BUDGET_GUARDRAIL")
      ("Cost guardrail: onboarding/social setup forced to budget model.")
  else d

/-- Second `next` rewrite: in strict mode the finer `strictBudgetTarget`
table overwrites a differing pick. -/
def strictTargetStep (cfg : Config) (d : RouteDecision) (features : Features)
    (requestText : String) : RouteDecision :=
  if cfg.costEfficiencyMode == ("strict") then
    let target := strictBudgetTarget d features requestText
    if some target.modelKey ≠ d.modelKey then
      withRoutedModel d target.modelKey ("BUDGET_GUARDRAIL")
        (("Cost guardrail strict: ") ++ target.reason ++ ("."))
    else d
  else d

/-- Third rewrite: direct Opus picks are downgraded when direct premium
access is disabled. -/
def opusCeilingStep (cfg : Config) (d : RouteDecision) : RouteDecision :=
  if !cfg.allowDirectPremiumModels && d.modelKey == some ("opus") then
    withRoutedModel d
      (if d.adjustedComplexity == ("critical") then valueTierModelForCategory d.categoryId else ("grok"))
      ("BUDGET_GUARDRAIL")
      ("Cost guardrail: blocked direct Opus route for non-high-stakes request.")
  else d

/-- Fourth rewrite: Sonnet picks are downgraded for low-complexity or (in
strict mode) short tool-free requests. -/
def sonnetCeilingStep (cfg : Config) (d : RouteDecision)
    (shortPrompt hasTools longContext hasMultimodal : Bool) : RouteDecision :=
  if !cfg.allowDirectPremiumModels && d.modelKey == some ("sonnet")
      && (d.adjustedComplexity == ("simple") || d.adjustedComplexity == ("standard")
        || (cfg.costEfficiencyMode == ("strict") && d.adjustedComplexity != ("critical")
          && shortPrompt && !hasTools && !longContext && !hasMultimodal)) then
    withRoutedModel d ("grok") ("BUDGET_GUARDRAIL")
      ("Cost guardrail: downgraded Sonnet for low-complexity request.")
  else d

/-- Fifth rewrite: Gem31Pro picks are downgraded for short conversational
requests in strict mode. -/
def gem31CeilingStep (cfg : Config) (d : RouteDecision)
    (shortPrompt hasTools longContext hasMultimodal : Bool) : RouteDecision :=
  if cfg.costEfficiencyMode == ("strict") && d.modelKey == some ("gem31Pro")
      && shortPrompt && !hasTools && !longContext && !hasMultimodal then
    withRoutedModel d ("grok") ("BUDGET_GUARDRAIL")
      ("Cost guardrail: downgraded Gem31Pro for short conversational request.")
  else d

/-- `applyCostGuardrails` of server.js: the five sequential rewrites of
`next` are the five step functions above, applied in source order. -/
def applyCostGuardrails (cfg : Config) (routeDecision : RouteDecision)
    (classification : Classification) (lastUserMessage : String) (features : Features) : RouteDecision :=
  if cfg.forceModelId.isSome then routeDecision
  else if cfg.costEfficiencyMode == ("off") then routeDecision
  else if routeDecision.categoryId == ("high_stakes") then routeDecision
  else
    let requestText := normalizeWhitespace lastUserMessage
    let hasTools := features.hasToolsDeclared || decide (0 < features.toolMessages)
    let shortPrompt := decide (0 < requestText.length) && decide (requestText.length ≤ 240)
    let longContext := decide (1800 ≤ features.approxTokens)
    let hasMultimodal := features.hasMultimodal
    gem31CeilingStep cfg
      (sonnetCeilingStep cfg
        (opusCeilingStep cfg
          (strictTargetStep cfg (onboardingStep routeDecision requestText hasTools) features requestText))
        shortPrompt hasTools longContext hasMultimodal)
      shortPrompt hasTools longContext hasMultimodal

/-! ### Escalation decision -/

/-- `shouldEscalateFromSelfCheck` of server.js. -/
def shouldEscalateFromSelfCheck (cfg : Config) (score : Nat) (routeDecision : RouteDecision) : Bool :=
  if cfg.forceModelId.isSome || routeDecision.label == ("FORCED") then false
  else if 4 ≤ score then false
  else if score ≤ 1 then true
  else if routeDecision.categoryId == ("high_stakes") then true
  else if cfg.costEfficiencyMode == ("strict") then
    if routeDecision.adjustedComplexity == ("critical") then true
    else if routeDecision.adjustedComplexity == ("complex") then true
    else false
  else true

/-- `m25EscalationTarget` of server.js. -/
def m25EscalationTarget (routeDecision : RouteDecision) (features : Features)
    (requestText : String) : String :=
  let categoryId := jsOrStr routeDecision.categoryId ("communication")
  let approxTokens := features.approxTokens
  let requestTextN := normalizeWhitespace requestText
  if features.hasMultimodal then
    if 30000 ≤ approxTokens then ("gem31Pro") else ("kimiK25")
  else if categoryId == ("coding") && 8000 ≤ approxTokens && hasArchitectureSignals requestTextN then
    ("glm5")
  else if (["research", "planning", "reflection"].contains categoryId)
      && 12000 ≤ approxTokens && hasDeepAnalysisSignals requestTextN then
    ("glm5")
  else ("sonnet")

/-- `buildEscalationTarget` of server.js. -/
def buildEscalationTarget (cfg : Config) (modelKey : Option String) (score : Nat)
    (routeDecision : RouteDecision) (features : Features) (requestText : String) : Option String :=
  if cfg.forceModelId.isSome || routeDecision.label == ("FORCED") then none
  else if 4 ≤ score then none
  else if modelKey == some ("opus") then none
  else if score ≤ 1 then
    if cfg.costEfficiencyMode == ("strict") && routeDecision.categoryId != ("high_stakes")
        && routeDecision.adjustedComplexity != ("critical") then
      match modelKey with
      | none => some ("m25")
      | some mk =>
        if mk == ("m25") then some (m25EscalationTarget routeDecision features requestText)
        else some (escalationPathOr mk ("m25"))
    else some ("opus")
  else
    match modelKey with
    | none => some ("opus")
    | some mk =>
      if mk == ("m25") then some (m25EscalationTarget routeDecision features requestText)
      else some (escalationPathOr mk ("opus"))

/-! ### Candidate chains and the fallback executor -/

structure Candidate where
  modelKey : Option String
  modelId : String
deriving DecidableEq, Repr

/-- `buildCandidatesFromKeys` of server.js (the `seen` set is the accumulator;
unresolvable keys are skipped without being marked seen, as in the source). -/
def buildCandidatesFromKeysAux : List String → List String → List Candidate
  | _, [] => []
  | seen, k :: ks =>
    let normalized := jsTrim k
    if normalized == ("") || seen.contains normalized then buildCandidatesFromKeysAux seen ks
    else
      match modelIdForKey normalized with
      | none => buildCandidatesFromKeysAux seen ks
      | some modelId => { modelKey := some normalized, modelId := modelId } ::
          buildCandidatesFromKeysAux (normalized :: seen) ks

def buildCandidatesFromKeys (keys : List String) : List Candidate :=
  buildCandidatesFromKeysAux [] keys

/-- `buildCandidatesForRoute` of server.js. -/
def buildCandidatesForRoute (routeDecision : RouteDecision) (features : Features) : List Candidate :=
  match routeDecision.modelKey with
  | none =>
    (match routeDecision.modelId with
     | some literalId => [{ modelKey := none, modelId := literalId }]
     | none => [])
  | some key =>
    if features.hasMultimodal then
      buildCandidatesFromKeys
        ((dedupe (key :: MULTIMODAL_FALLBACK_KEYS)).filter (fun k => MULTIMODAL_FALLBACK_KEYS.contains k))
    else
      buildCandidatesFromKeys
        (key :: (match MODEL_FALLBACKS.find? (fun p => p.1 == key) with
                 | some p => p.2
                 | none => []))

structure UpstreamError where
  status : Nat
  message : String
  upstreamMessage : Option String
deriving DecidableEq, Repr

/-- Substring test (the 400-message scan has no word boundaries). -/
def containsSubstr (needle : List Char) : List Char → Bool
  | [] => needle.isEmpty
  | c :: rest => needle.isPrefixOf (c :: rest) || containsSubstr needle rest

/-- The 400-status message scan of `isRetryableModelError`:
`/(model|provider|unavailable|not found|capacity|unsupported)/` over
`String(error?.message || error?.upstream?.error?.message || "").toLowerCase()`. -/
def modelUnavailableMessage (e : UpstreamError) : Bool :=
  let message := lowerList (jsOrStr e.message ((e.upstreamMessage).getD (""))).toList
  containsSubstr ("model").toList message || containsSubstr ("provider").toList message
    || containsSubstr ("unavailable").toList message || containsSubstr ("not found").toList message
    || containsSubstr ("capacity").toList message || containsSubstr ("unsupported").toList message

/-- `isRetryableModelError` of server.js. -/
def isRetryableModelError (e : UpstreamError) : Bool :=
  if e.status == 429 || e.status == 502 || e.status == 503 || e.status == 504 then true
  else if e.status == 404 then true
  else if e.status == 400 then modelUnavailableMessage e
  else false

structure Attempt where
  model : String
  status : Nat
  message : String
deriving DecidableEq, Repr

inductive CallOutcome (α : Type) where
  | success : α → Option String → String → Bool → List Attempt → CallOutcome α
  | failure : UpstreamError → List Attempt → CallOutcome α
deriving DecidableEq, Repr

/-- The attempt record pushed for a failed candidate. -/
def mkAttempt (c : Candidate) (e : UpstreamError) : Attempt :=
  { model := c.modelId, status := e.status,
    message := jsSlice (jsOrStr e.message ("Unknown error")) 160 }

/-- The loop of `callWithModelCandidates`, with the call abstracted to the
per-candidate outcome `f`.  The flag is `i > 0` (`usedFallback`); the empty
case is the dead post-loop `routing_exhausted` error of the source. -/
def runCandidates (f : Candidate → Except UpstreamError α) :
    List Candidate → Bool → List Attempt → CallOutcome α
  | [], _, attempted =>
    CallOutcome.failure { status := 502, message := ("Model candidate chain exhausted."), upstreamMessage := none } attempted
  | c :: rest, usedFallback, attempted =>
    match f c with
    | Except.ok r => CallOutcome.success r c.modelKey c.modelId usedFallback attempted
    | Except.error e =>
      let attempted2 := attempted ++ [mkAttempt c e]
      if !isRetryableModelError e || rest.isEmpty then CallOutcome.failure e attempted2
      else runCandidates f rest true attempted2

/-- `callWithModelCandidates` of server.js. -/
def callWithModelCandidates (f : Candidate → Except UpstreamError α)
    (candidates : List Candidate) : CallOutcome α :=
  if candidates.isEmpty then
    CallOutcome.failure { status := 500, message := ("No candidate models available for request."), upstreamMessage := none } []
  else runCandidates f candidates false []

/-- `isHighStakesConfirmed` of server.js: the three token carriers (`none`
models an absent or non-string value). -/
def isHighStakesConfirmed (cfg : Config) (headerValue metadataValue bodyValue : Option String) : Bool :=
  let matchesConfirmToken := fun (v : Option String) =>
    match v with
    | some s => jsLower (jsTrim s) == cfg.highStakesConfirmToken
    | none => false
  matchesConfirmToken headerValue || matchesConfirmToken metadataValue || matchesConfirmToken bodyValue

end Astrolabe

namespace Astrolabe

/-! ### Messages, features, and the request handler

The `/v1/chat/completions` handler is modelled as a pure function from the
parsed request plus the outcomes of its (at most) five network interactions to
the response outcome, together with a trace counting how many times each call
site was reached.  Streaming relay internals (byte piping, disconnects) stay
outside the model; the streaming branch is the `streamed` outcome. -/

/-- One element of an array-valued `content` as `safeText` reads it: a string,
an object carrying optional string `type` / `text` / `content` fields, or
anything else. -/
inductive ContentItem where
  | str : String → ContentItem
  | obj : Option String → Option String → Option String → ContentItem
  | other : ContentItem

def ContentItem.itemType : ContentItem → Option String
  | ContentItem.obj t _ _ => t
  | _ => none

/-- The text `safeText` extracts from one array item. -/
def contentItemText : ContentItem → String
  | ContentItem.str s => s
  | ContentItem.obj _ (some t) _ => t
  | ContentItem.obj _ none (some c) => c
  | ContentItem.obj _ none none => ("")
  | ContentItem.other => ("")

/-- A message `content` value: string, array of parts, object with optional
string `text` / `content` fields, or anything else (null, number, …). -/
inductive MsgContent where
  | str : String → MsgContent
  | arr : List ContentItem → MsgContent
  | objTC : Option String → Option String → MsgContent
  | other : MsgContent

/-- `safeText` of server.js. -/
def safeText : MsgContent → String
  | MsgContent.str s => s
  | MsgContent.arr items =>
    String.intercalate (" ") (((items.map contentItemText).filter (fun t => t != (""))))
  | MsgContent.objTC (some t) _ => t
  | MsgContent.objTC none (some c) => c
  | MsgContent.objTC none none => ("")
  | MsgContent.other => ("")

structure Msg where
  role : String
  content : MsgContent

/-- `extractLastUserMessage` of server.js: last user message with nonempty
trimmed text. -/
def extractLastUserMessage (messages : List Msg) : String :=
  match messages.reverse.find? (fun m => m.role == ("user") && jsTrim (safeText m.content) != ("")) with
  | some m => jsTrim (safeText m.content)
  | none => ("")

/-- `buildRecentContext` of server.js with the default window bounds
(`CLASSIFIER_CONTEXT_MESSAGES = 8`, `CLASSIFIER_CONTEXT_CHARS = 2500`). -/
def buildRecentContext (messages : List Msg) : String :=
  let recent := messages.drop (messages.length - 8)
  let packed := String.intercalate ("\n") (recent.map (fun m =>
    jsOrStr m.role ("unknown") ++ (": ") ++ jsSlice (normalizeWhitespace (safeText m.content)) 320))
  jsSlice packed 2500

/-- Does one content part flag the message as multimodal
(`part.type && part.type !== "text"`)? -/
def partIsMultimodal (p : ContentItem) : Bool :=
  match p.itemType with
  | some ty => ty != ("") && ty != ("text")
  | none => false

/-- The per-message accumulation step of `extractConversationFeatures`. -/
def featuresStep (stats : Features) (m : Msg) : Features :=
  let text := safeText m.content
  { stats with
    userMessages := stats.userMessages + (if m.role == ("user") then 1 else 0)
    assistantMessages := stats.assistantMessages + (if m.role == ("assistant") then 1 else 0)
    systemMessages := stats.systemMessages + (if m.role == ("system") then 1 else 0)
    toolMessages := stats.toolMessages + (if m.role == ("tool") then 1 else 0)
    approxChars := stats.approxChars + text.length
    hasMultimodal := stats.hasMultimodal ||
      (match m.content with
       | MsgContent.arr items => items.any partIsMultimodal
       | _ => false) }

/-- `extractConversationFeatures` of server.js (`toolsDeclared` is the
precomputed `Array.isArray(body.tools) && body.tools.length > 0`). -/
def extractConversationFeatures (messages : List Msg) (toolsDeclared : Bool) : Features :=
  let base : Features :=
    { messageCount := messages.length, hasToolsDeclared := toolsDeclared }
  let stats := messages.foldl featuresStep base
  { stats with approxTokens := (stats.approxChars + 3) / 4 }

/-- The JS value of `body.stream` as the handler can observe it. -/
inductive StreamVal where
  | absent : StreamVal
  | boolv : Bool → StreamVal
  | strv : String → StreamVal
  | numv : Int → StreamVal
  | nullv : StreamVal
deriving DecidableEq, Repr

/-- `body.stream !== false`. -/
def streamRequestedOf : StreamVal → Bool
  | StreamVal.boolv false => false
  | _ => true

structure ChatBody where
  /-- `none` models a missing or non-array `messages` field. -/
  messages : Option (List Msg)
  stream : StreamVal := StreamVal.absent
  /-- `Array.isArray(body.tools) && body.tools.length > 0`. -/
  toolsDeclared : Bool := false
  /-- `body.metadata?.astrolabe_confirmed` when it is a string. -/
  metadataConfirm : Option String := none
  /-- `body.astrolabe_confirmed` when it is a string. -/
  bodyConfirm : Option String := none

structure ChatReq where
  /-- the `x-astrolabe-confirmed` header when it is a string -/
  headerConfirm : Option String := none
  body : ChatBody

/-- Result of one upstream completion call chain (primary or escalation). -/
structure PrimaryResult where
  modelKey : Option String
  modelId : String
  /-- `safeText(result?.choices?.[0]?.message?.content)` -/
  answerText : String
  /-- `Array.isArray(finalResponse.choices)` -/
  choicesValid : Bool

/-- The outcomes of the handler's network interactions, in program order. -/
structure Oracles where
  classifier : JudgeOutcome
  primary : Except UpstreamError PrimaryResult
  selfCheck1 : JudgeOutcome
  escalation : Except UpstreamError PrimaryResult
  selfCheck2 : JudgeOutcome

inductive Outcome where
  | badRequest : Outcome
  | confirmationRequired : List String → Outcome
  | streamed : String → Outcome
  | completed : String → Bool → Option Nat → Bool → Outcome
  | errored : Nat → Outcome
deriving DecidableEq, Repr

/-- Number of times each call site was reached (a candidate-chain invocation
counts once). -/
structure CallTrace where
  classifierCalls : Nat := 0
  upstreamCalls : Nat := 0
  selfCheckCalls : Nat := 0
  escalationCalls : Nat := 0
deriving DecidableEq, Repr

/-- The error-handler status clamp: `Number(error.status) || 500`, then 500
unless within 400–599. -/
def clampStatus (s : Nat) : Nat :=
  let raw := if s == 0 then 500 else s
  if 400 ≤ raw && raw ≤ 599 then raw else 500

/-- `safetyText` of the handler: last user message and recent context. -/
def safetyTextOf (messages : List Msg) : String :=
  extractLastUserMessage messages ++ ("\n") ++ buildRecentContext messages

/-- `lowConfidence` as derived after a self-check (`score <= 3`, forced for
imperfect high-stakes answers). -/
def lowConfidenceFlag (routeDecision : RouteDecision) (score : Nat) : Bool :=
  decide (score ≤ 3) || (routeDecision.categoryId == ("high_stakes") && decide (score < 4))

/-- The escalation target the handler computes after the first self-check:
the self-check decision plus the high-stakes FLOOR override.  `finalModelKey`
is the key of the backend that produced the primary answer. -/
def computedEscalationTarget (cfg : Config) (routeDecision : RouteDecision)
    (features : Features) (requestText : String) (score : Nat)
    (finalModelKey : Option String) : Option String :=
  let fromSelfCheck :=
    if shouldEscalateFromSelfCheck cfg score routeDecision then
      buildEscalationTarget cfg finalModelKey score routeDecision features requestText
    else none
  if routeDecision.categoryId == ("high_stakes") && routeDecision.label == ("FLOOR")
      && decide (score < 5) then some ("opus")
  else fromSelfCheck

/-- The gate in front of the escalation call:
`escalationTarget && modelIdForKey(escalationTarget) && finalModelKey !== escalationTarget`. -/
def escalationCallTarget (cfg : Config) (routeDecision : RouteDecision) (features : Features)
    (requestText : String) (score : Nat) (finalModelKey : Option String) : Option String :=
  match computedEscalationTarget cfg routeDecision features requestText score finalModelKey with
  | none => none
  | some target =>
    if (modelIdForKey target).isSome && finalModelKey ≠ some target then some target
    else none

/-- The `/v1/chat/completions` handler (lines 1579–1820 of server.js) as a
pure function of the request and the call outcomes. -/
def handleChat (cfg : Config) (req : ChatReq) (orc : Oracles) : Outcome × CallTrace :=
  match req.body.messages with
  | none => (Outcome.badRequest, {})
  | some messages =>
    let streamRequested := streamRequestedOf req.body.stream
    let lastUserMessage := extractLastUserMessage messages
    let recentContext := buildRecentContext messages
    let features := extractConversationFeatures messages req.body.toolsDeclared
    let safetyGate := detectSafetyGate cfg (safetyTextOf messages)
    if safetyGate.triggered && cfg.highStakesConfirmMode == ("strict")
        && !isHighStakesConfirmed cfg req.headerConfirm req.body.metadataConfirm req.body.bodyConfirm then
      (Outcome.confirmationRequired safetyGate.matchedSignals, {})
    else
      let classifierResult := classifyRequest cfg lastUserMessage recentContext features safetyGate orc.classifier
      let classifierNet := if safetyGate.triggered || cfg.forceModelId.isSome then 0 else 1
      let routeDecision0 := resolveRouteDecision cfg classifierResult safetyGate
      let routeDecision := applyCostGuardrails cfg routeDecision0 classifierResult lastUserMessage features
      match orc.primary with
      | Except.error e =>
        (Outcome.errored (clampStatus e.status), { classifierCalls := classifierNet, upstreamCalls := 1 })
      | Except.ok primaryCall =>
        let baseTrace : CallTrace := { classifierCalls := classifierNet, upstreamCalls := 1 }
        if streamRequested then (Outcome.streamed primaryCall.modelId, baseTrace)
        else if routeDecision.label == ("FORCED") then
          if !primaryCall.choicesValid then (Outcome.errored 502, baseTrace)
          else (Outcome.completed primaryCall.modelId false none false, baseTrace)
        else
          let firstSelfCheck := runSelfCheck lastUserMessage primaryCall.answerText orc.selfCheck1
          let score := firstSelfCheck.score
          match escalationCallTarget cfg routeDecision features lastUserMessage score primaryCall.modelKey with
          | some _ =>
            (match orc.escalation with
             | Except.error e =>
               (Outcome.errored (clampStatus e.status),
                { baseTrace with upstreamCalls := 2, selfCheckCalls := 1, escalationCalls := 1 })
             | Except.ok escalatedCall =>
               let secondSelfCheck := runSelfCheck lastUserMessage escalatedCall.answerText orc.selfCheck2
               let trace : CallTrace :=
                 { baseTrace with upstreamCalls := 2, selfCheckCalls := 2, escalationCalls := 1 }
               if !escalatedCall.choicesValid then (Outcome.errored 502, trace)
               else
                 (Outcome.completed escalatedCall.modelId true (some secondSelfCheck.score)
                   (lowConfidenceFlag routeDecision secondSelfCheck.score), trace))
          | none =>
            let trace : CallTrace := { baseTrace with selfCheckCalls := 1 }
            if !primaryCall.choicesValid then (Outcome.errored 502, trace)
            else
              (Outcome.completed primaryCall.modelId false (some score)
                (lowConfidenceFlag routeDecision score), trace)

end Astrolabe
namespace Astrolabe

/-- C2: with the safety gate enabled, `detectSafetyGate(text).triggered` is
true exactly when the text matches the action-verb regex, or at least one
sensitive-data synonym, or at least one strong high-stakes category signal,
or at least two distinct weak signals; in particular every action-verb match
triggers the gate, a single weak signal with no other match does not, and two
distinct weak signals do. -/
theorem gate_trigger_characterization :
    (∀ (cfg : Config) (text : String), cfg.enableSafetyGate = true →
      (detectSafetyGate cfg text).triggered =
        (gateActionLike text || decide (0 < (gateSynonymMatches text).length)
          || decide (0 < (gateStrongMatches text).length)
          || decide (2 ≤ (gateWeakMatches text).length)))
    ∧ (∀ (cfg : Config) (text : String), cfg.enableSafetyGate = true →
        gateActionLike text = true → (detectSafetyGate cfg text).triggered = true)
    ∧ (∀ (cfg : Config) (text : String), cfg.enableSafetyGate = true →
        gateActionLike text = false → gateSynonymMatches text = [] →
        gateStrongMatches text = [] → (gateWeakMatches text).length ≤ 1 →
        (detectSafetyGate cfg text).triggered = false)
    ∧ (∀ (cfg : Config) (text : String), cfg.enableSafetyGate = true →
        2 ≤ (gateWeakMatches text).length →
        (detectSafetyGate cfg text).triggered = true) := by
  refine ⟨?_, ?_, ?_, ?_⟩
  · intro cfg text h
    simp [detectSafetyGate, h]
  · intro cfg text h ha
    simp [detectSafetyGate, h, ha]
  · intro cfg text h ha hs hst hw
    simp [detectSafetyGate, h, ha, hs, hst]
    omega
  · intro cfg text h hw
    simp [detectSafetyGate, h, hw]

/-- Witness for C2 at concrete texts. -/
theorem gate_trigger_characterization_witness :
    (detectSafetyGate {} ("please pay the bill now")).triggered = true
    ∧ (detectSafetyGate {} ("the invoice")).triggered = false
    ∧ (detectSafetyGate {} ("the invoice and the contract")).triggered = true :=
  ⟨gate_trigger_characterization.2.1 {} ("please pay the bill now") rfl (by decide),
   gate_trigger_characterization.2.2.1 {} ("the invoice") rfl (by decide) (by decide) (by decide) (by decide),
   gate_trigger_characterization.2.2.2 {} ("the invoice and the contract") rfl (by decide)⟩

end Astrolabe
namespace Astrolabe

/-- Rank of a complexity level in the total order simple < standard < complex
< critical (−1 for strings outside the enumeration, like `Array.indexOf`). -/
def complexityRank (c : String) : Int := jsIndexOf COMPLEXITY_ORDER c

/-- C8: the routing-profile shift is monotone over the complexity order:
quality shifts up, budget shifts down except for categories at injection risk
MEDIUM-HIGH or above, balanced applies no shift, and shifts saturate at the
ordered extremes. -/
theorem routing_profile_shift_monotone :
    (∀ (cfg : Config) (c cat : String), cfg.routingProfile = ("quality") →
      c ∈ COMPLEXITY_ORDER → complexityRank c ≤ complexityRank (applyRoutingProfile cfg c cat))
    ∧ (∀ (cfg : Config) (c cat : String) (p : CategoryPolicy), cfg.routingProfile = ("budget") →
        c ∈ COMPLEXITY_ORDER → categoryById cat = some p → riskRank p.injectionRisk < 3 →
        complexityRank (applyRoutingProfile cfg c cat) ≤ complexityRank c)
    ∧ (∀ (cfg : Config) (c cat : String) (p : CategoryPolicy), cfg.routingProfile = ("budget") →
        c ∈ COMPLEXITY_ORDER → categoryById cat = some p → 3 ≤ riskRank p.injectionRisk →
        applyRoutingProfile cfg c cat = c)
    ∧ (∀ (cfg : Config) (c cat : String), cfg.routingProfile = ("balanced") →
        c ∈ COMPLEXITY_ORDER → applyRoutingProfile cfg c cat = c)
    ∧ (∀ (cfg : Config) (cat : String), cfg.routingProfile = ("quality") →
        applyRoutingProfile cfg ("critical") cat = ("critical"))
    ∧ (∀ (cfg : Config) (cat : String) (p : CategoryPolicy), cfg.routingProfile = ("budget") →
        categoryById cat = some p → riskRank p.injectionRisk < 3 →
        applyRoutingProfile cfg ("simple") cat = ("simple")) := by
  refine ⟨?_, ?_, ?_, ?_, ?_, ?_⟩
  · intro cfg c cat hprof hc
    simp only [COMPLEXITY_ORDER, List.mem_cons, List.not_mem_nil, or_false] at hc
    rcases hc with rfl | rfl | rfl | rfl <;>
      (simp only [applyRoutingProfile, hprof]
       rw [if_neg (by decide), if_pos (by decide)]
       decide)
  · intro cfg c cat p hprof hc hcat hrisk
    simp only [COMPLEXITY_ORDER, List.mem_cons, List.not_mem_nil, or_false] at hc
    rcases hc with rfl | rfl | rfl | rfl <;>
      (simp only [applyRoutingProfile, hprof, hcat]
       rw [if_neg (by decide), if_neg (by decide), if_pos (by decide), if_neg (by omega)]
       decide)
  · intro cfg c cat p hprof hc hcat hrisk
    simp only [COMPLEXITY_ORDER, List.mem_cons, List.not_mem_nil, or_false] at hc
    rcases hc with rfl | rfl | rfl | rfl <;>
      (simp only [applyRoutingProfile, hprof, hcat]
       rw [if_neg (by decide), if_neg (by decide), if_pos (by decide), if_pos (by omega)])
  · intro cfg c cat hprof hc
    simp only [COMPLEXITY_ORDER, List.mem_cons, List.not_mem_nil, or_false] at hc
    rcases hc with rfl | rfl | rfl | rfl <;>
      (simp only [applyRoutingProfile, hprof]
       rw [if_neg (by decide), if_neg (by decide), if_neg (by decide)])
  · intro cfg cat hprof
    simp only [applyRoutingProfile, hprof]
    rw [if_neg (by decide), if_pos (by decide)]
    decide
  · intro cfg cat p hprof hcat hrisk
    simp only [applyRoutingProfile, hprof, hcat]
    rw [if_neg (by decide), if_neg (by decide), if_pos (by decide), if_neg (by omega)]
    decide

/-- Witness for C8 at concrete inputs. -/
theorem routing_profile_shift_monotone_witness :
    complexityRank ("standard")
      ≤ complexityRank (applyRoutingProfile { routingProfile := ("quality") } ("standard") ("coding"))
    ∧ applyRoutingProfile { routingProfile := ("budget") } ("standard") ("retrieval") = ("standard")
    ∧ complexityRank (applyRoutingProfile { routingProfile := ("budget") } ("standard") ("creative"))
      ≤ complexityRank ("standard")
    ∧ applyRoutingProfile { routingProfile := ("balanced") } ("complex") ("coding") = ("complex")
    ∧ applyRoutingProfile { routingProfile := ("quality") } ("critical") ("coding") = ("critical")
    ∧ applyRoutingProfile { routingProfile := ("budget") } ("simple") ("creative") = ("simple") :=
  ⟨routing_profile_shift_monotone.1 { routingProfile := ("quality") } ("standard") ("coding") rfl (by decide),
   routing_profile_shift_monotone.2.2.1 { routingProfile := ("budget") } ("standard") ("retrieval")
     { id := ("retrieval"), injectionRisk := ("MEDIUM-HIGH"),
       classifierSignals := ["calendar", "email_search", "web_search", "web_fetch", "memory_search", "weather", "lookup", "find"] }
     rfl (by decide) (by decide) (by decide),
   routing_profile_shift_monotone.2.1 { routingProfile := ("budget") } ("standard") ("creative")
     { id := ("creative"), injectionRisk := ("LOW"),
       classifierSignals := ["brainstorm", "creative", "story", "write", "copy", "ideas", "design", "blog", "poem"] }
     rfl (by decide) (by decide) (by decide),
   routing_profile_shift_monotone.2.2.2.1 { routingProfile := ("balanced") } ("complex") ("coding") rfl (by decide),
   routing_profile_shift_monotone.2.2.2.2.1 { routingProfile := ("quality") } ("coding") rfl,
   routing_profile_shift_monotone.2.2.2.2.2 { routingProfile := ("budget") } ("creative")
     { id := ("creative"), injectionRisk := ("LOW"),
       classifierSignals := ["brainstorm", "creative", "story", "write", "copy", "ideas", "design", "blog", "poem"] }
     rfl (by decide) (by decide)⟩

end Astrolabe
namespace Astrolabe

/-- A key that resolves in the registry is one of the ten configured keys. -/
lemma modelIdForKey_isSome_mem (k : String) (h : (modelIdForKey k).isSome = true) :
    k ∈ ["opus", "sonnet", "m25", "kimiK25", "glm5", "grok", "nano", "dsCoder", "gemFlash", "gem31Pro"] := by
  obtain ⟨v, hv⟩ := Option.isSome_iff_exists.mp h
  unfold modelIdForKey at hv
  obtain ⟨pair, hfind, _⟩ := Option.map_eq_some'.mp hv
  have hpred := List.find?_some hfind
  have hmem := List.mem_of_find?_eq_some hfind
  have hk : pair.1 = k := by simpa using hpred
  subst hk
  fin_cases hmem <;> simp

/-- C9: for every route decision whose backend key resolves in the static
model registry, the candidate chain is non-empty and contains no duplicate
backend keys or ids, on both the normal and the multimodal path. -/
theorem candidate_chain_nonempty_nodup :
    ∀ (rd : RouteDecision) (f : Features) (k : String), rd.modelKey = some k →
      (modelIdForKey k).isSome = true →
      buildCandidatesForRoute rd f ≠ []
      ∧ ((buildCandidatesForRoute rd f).map Candidate.modelKey).Nodup
      ∧ ((buildCandidatesForRoute rd f).map Candidate.modelId).Nodup := by
  intro rd f k hk hres
  have hmem := modelIdForKey_isSome_mem k hres
  unfold buildCandidatesForRoute
  rw [hk]
  fin_cases hmem <;> cases hmm : f.hasMultimodal <;> simp_all <;> decide

end Astrolabe

namespace Astrolabe

/-- A concrete route decision used by witnesses. -/
def sampleRouteDecision : RouteDecision :=
  { categoryId := ("coding"), complexity := ("standard"), adjustedComplexity := ("standard"),
    modelKey := some ("m25"), modelId := some ("minimax/minimax-m2.5"), label := ("DEFAULT"),
    rule := ("Standard and complex feature implementation / debugging"),
    injectionRisk := ("HIGH"), safetyGateTriggered := false }

/-- Witness for C9 at a concrete resolvable decision. -/
theorem candidate_chain_nonempty_nodup_witness :
    buildCandidatesForRoute sampleRouteDecision {} ≠ []
    ∧ ((buildCandidatesForRoute sampleRouteDecision {}).map Candidate.modelKey).Nodup
    ∧ ((buildCandidatesForRoute sampleRouteDecision {}).map Candidate.modelId).Nodup :=
  candidate_chain_nonempty_nodup sampleRouteDecision {} ("m25") rfl (by decide)

end Astrolabe
namespace Astrolabe

/-- C7: an upstream failure is retryable exactly for status 429/502/503/504,
status 404, or status 400 with a model/provider-unavailable-style message; the
fallback executor returns on success, moves to the next candidate exactly when
the failure is retryable and a candidate remains, and aborts immediately
otherwise. -/
theorem retryable_fallback_behavior :
    (∀ e : UpstreamError, isRetryableModelError e = true ↔
      (e.status = 429 ∨ e.status = 502 ∨ e.status = 503 ∨ e.status = 504 ∨ e.status = 404
        ∨ (e.status = 400 ∧ modelUnavailableMessage e = true)))
    ∧ (∀ (α : Type) (f : Candidate → Except UpstreamError α) (c : Candidate)
        (rest : List Candidate) (fb : Bool) (att : List Attempt) (r : α),
        f c = Except.ok r →
        runCandidates f (c :: rest) fb att = CallOutcome.success r c.modelKey c.modelId fb att)
    ∧ (∀ (α : Type) (f : Candidate → Except UpstreamError α) (c : Candidate)
        (rest : List Candidate) (fb : Bool) (att : List Attempt) (e : UpstreamError),
        f c = Except.error e → isRetryableModelError e = false →
        runCandidates f (c :: rest) fb att = CallOutcome.failure e (att ++ [mkAttempt c e]))
    ∧ (∀ (α : Type) (f : Candidate → Except UpstreamError α) (c : Candidate)
        (rest : List Candidate) (fb : Bool) (att : List Attempt) (e : UpstreamError),
        f c = Except.error e → isRetryableModelError e = true → rest ≠ [] →
        runCandidates f (c :: rest) fb att = runCandidates f rest true (att ++ [mkAttempt c e]))
    ∧ (∀ (α : Type) (f : Candidate → Except UpstreamError α) (c : Candidate)
        (fb : Bool) (att : List Attempt) (e : UpstreamError),
        f c = Except.error e → isRetryableModelError e = true →
        runCandidates f [c] fb att = CallOutcome.failure e (att ++ [mkAttempt c e])) := by
  refine ⟨?_, ?_, ?_, ?_, ?_⟩
  · intro e
    constructor
    · intro h
      rcases e with ⟨s, m, um⟩
      unfold isRetryableModelError at h
      dsimp only at h
      by_cases h1 : (s == 429 || s == 502 || s == 503 || s == 504) = true
      · simp only [Bool.or_eq_true, beq_iff_eq] at h1
        tauto
      · rw [if_neg h1] at h
        by_cases h2 : (s == 404) = true
        · simp only [beq_iff_eq] at h2
          tauto
        · rw [if_neg h2] at h
          by_cases h3 : (s == 400) = true
          · rw [if_pos h3] at h
            simp only [beq_iff_eq] at h3
            tauto
          · rw [if_neg h3] at h
            exact absurd h (by simp)
    · intro hd
      rcases e with ⟨s, m, um⟩
      dsimp only at hd ⊢
      rcases hd with h | h | h | h | h | ⟨h, hm⟩
      · subst h; simp [isRetryableModelError]
      · subst h; simp [isRetryableModelError]
      · subst h; simp [isRetryableModelError]
      · subst h; simp [isRetryableModelError]
      · subst h; simp [isRetryableModelError]
      · subst h; simp [isRetryableModelError, hm]
  · intro α f c rest fb att r hok
    simp only [runCandidates, hok]
  · intro α f c rest fb att e herr hret
    simp only [runCandidates, herr]
    simp [hret]
  · intro α f c rest fb att e herr hret hrest
    cases rest with
    | nil => exact absurd rfl hrest
    | cons r2 rs =>
      simp only [runCandidates, herr]
      simp [hret]
  · intro α f c fb att e herr hret
    simp only [runCandidates, herr]
    simp [hret]

end Astrolabe

namespace Astrolabe

/-- Witness for C7: a 401 aborts despite a remaining candidate; a 503 moves on
to the next candidate. -/
theorem retryable_fallback_behavior_witness :
    runCandidates (fun _ => (Except.error ⟨401, ("auth failed"), none⟩ : Except UpstreamError Unit))
      [⟨some ("m25"), ("minimax/minimax-m2.5")⟩, ⟨some ("grok"), ("x-ai/grok-4.1-fast")⟩] false []
      = CallOutcome.failure ⟨401, ("auth failed"), none⟩
          [mkAttempt ⟨some ("m25"), ("minimax/minimax-m2.5")⟩ ⟨401, ("auth failed"), none⟩]
    ∧ runCandidates (fun _ => (Except.error ⟨503, ("overloaded"), none⟩ : Except UpstreamError Unit))
        [⟨some ("m25"), ("minimax/minimax-m2.5")⟩, ⟨some ("grok"), ("x-ai/grok-4.1-fast")⟩] false []
      = runCandidates (fun _ => (Except.error ⟨503, ("overloaded"), none⟩ : Except UpstreamError Unit))
          [⟨some ("grok"), ("x-ai/grok-4.1-fast")⟩] true
          [mkAttempt ⟨some ("m25"), ("minimax/minimax-m2.5")⟩ ⟨503, ("overloaded"), none⟩] :=
  ⟨by
    have h := retryable_fallback_behavior.2.2.1 (Unit)
      (fun _ => (Except.error ⟨401, ("auth failed"), none⟩ : Except UpstreamError Unit))
      ⟨some ("m25"), ("minimax/minimax-m2.5")⟩ [⟨some ("grok"), ("x-ai/grok-4.1-fast")⟩]
      false [] ⟨401, ("auth failed"), none⟩ rfl (by decide)
    simpa using h,
   by
    have h := retryable_fallback_behavior.2.2.2.1 (Unit)
      (fun _ => (Except.error ⟨503, ("overloaded"), none⟩ : Except UpstreamError Unit))
      ⟨some ("m25"), ("minimax/minimax-m2.5")⟩ [⟨some ("grok"), ("x-ai/grok-4.1-fast")⟩]
      false [] ⟨503, ("overloaded"), none⟩ rfl (by decide) (by simp)
    simpa using h⟩

end Astrolabe
namespace Astrolabe

/-- C5: judge-backend failures are never fatal.  `classifyRequest` returns a
classification for every outcome — a call error or unparsable output degrades
to the heuristic result (a pure function with no call outcome input) — and
`runSelfCheck` returns score 4 whenever the judge is unreachable or its output
defeats the whole parse cascade; both are total functions, so no error is
raised. -/
theorem judge_failures_never_fatal :
    (∀ (cfg : Config) (lum rc : String) (f : Features) (sg : SafetyGateResult) (msg : String),
      sg.triggered = false → cfg.forceModelId = none →
      classifyRequest cfg lum rc f sg (JudgeOutcome.err msg) =
        { heuristicClassification lum rc f sg with
          reason := ("Classifier error fallback: ") ++ jsSlice (jsOrStr msg ("Unknown error")) 120
          source := ("heuristic_on_classifier_error") })
    ∧ (∀ (cfg : Config) (lum rc : String) (f : Features) (sg : SafetyGateResult) (mid content : String),
        sg.triggered = false → cfg.forceModelId = none →
        parseClassifierOutput (normalizeWhitespace content) = none →
        classifyRequest cfg lum rc f sg (JudgeOutcome.ok mid content) =
          { heuristicClassification lum rc f sg with
            reason := ("Classifier parse fallback to heuristic.")
            source := ("heuristic_fallback") })
    ∧ (∀ (cfg : Config) (lum rc : String) (f : Features) (sg : SafetyGateResult) (judge : JudgeOutcome),
        sg.triggered = true →
        classifyRequest cfg lum rc f sg judge = heuristicClassification lum rc f sg)
    ∧ (∀ (lum ans msg : String), (runSelfCheck lum ans (JudgeOutcome.err msg)).score = 4)
    ∧ (∀ raw : String, (parsedObjectMembers raw).isNone = true → looseScore raw = none →
        (parseSelfCheckOutput raw).score = 4)
    ∧ (∀ (lum ans mid content : String),
        (runSelfCheck lum ans (JudgeOutcome.ok mid content)).score =
          (parseSelfCheckOutput (normalizeWhitespace content)).score) := by
  refine ⟨?_, ?_, ?_, ?_, ?_, ?_⟩
  · intro cfg lum rc f sg msg htrig hforce
    simp [classifyRequest, htrig, hforce]
  · intro cfg lum rc f sg mid content htrig hforce hparse
    simp [classifyRequest, htrig, hforce, hparse]
  · intro cfg lum rc f sg judge htrig
    simp [classifyRequest, htrig]
  · intro lum ans msg
    simp [runSelfCheck]
  · intro raw hobj hloose
    rw [Option.isNone_iff_eq_none] at hobj
    simp [parseSelfCheckOutput, hobj, hloose]
  · intro lum ans mid content
    simp [runSelfCheck]

/-- Witness for C5 at concrete inputs. -/
theorem judge_failures_never_fatal_witness :
    classifyRequest {} ("hi") ("user: hi") {} { triggered := false, matchedSignals := [], actionLike := false }
        (JudgeOutcome.err ("socket hang up")) =
      { heuristicClassification ("hi") ("user: hi") {}
          { triggered := false, matchedSignals := [], actionLike := false } with
        reason := ("Classifier error fallback: ") ++ jsSlice (jsOrStr ("socket hang up") ("Unknown error")) 120
        source := ("heuristic_on_classifier_error") }
    ∧ classifyRequest {} ("hi") ("user: hi") {} { triggered := false, matchedSignals := [], actionLike := false }
        (JudgeOutcome.ok ("openai/gpt-5-nano") ("no verdict at all")) =
      { heuristicClassification ("hi") ("user: hi") {}
          { triggered := false, matchedSignals := [], actionLike := false } with
        reason := ("Classifier parse fallback to heuristic.")
        source := ("heuristic_fallback") }
    ∧ (runSelfCheck ("hi") ("ok") (JudgeOutcome.err ("timeout"))).score = 4
    ∧ (parseSelfCheckOutput ("could not judge")).score = 4 :=
  ⟨judge_failures_never_fatal.1 {} ("hi") ("user: hi") {}
      { triggered := false, matchedSignals := [], actionLike := false } ("socket hang up") rfl rfl,
   judge_failures_never_fatal.2.1 {} ("hi") ("user: hi") {}
      { triggered := false, matchedSignals := [], actionLike := false }
      ("openai/gpt-5-nano") ("no verdict at all") rfl rfl (by decide),
   judge_failures_never_fatal.2.2.2.1 ("hi") ("ok") ("timeout"),
   judge_failures_never_fatal.2.2.2.2.1 ("could not judge") (by decide) (by decide)⟩

end Astrolabe
namespace Astrolabe

/-- C6: with the gate triggered, strict confirmation mode and no matching
token, the handler returns the confirmation-required outcome carrying the
gate's matched signals and reaches no upstream call site at all. -/
theorem strict_confirmation_blocks_upstream :
    ∀ (cfg : Config) (req : ChatReq) (orc : Oracles) (msgs : List Msg),
      req.body.messages = some msgs →
      (detectSafetyGate cfg (safetyTextOf msgs)).triggered = true →
      cfg.highStakesConfirmMode = ("strict") →
      isHighStakesConfirmed cfg req.headerConfirm req.body.metadataConfirm req.body.bodyConfirm = false →
      handleChat cfg req orc =
        (Outcome.confirmationRequired (detectSafetyGate cfg (safetyTextOf msgs)).matchedSignals,
         { classifierCalls := 0, upstreamCalls := 0, selfCheckCalls := 0, escalationCalls := 0 }) := by
  intro cfg req orc msgs hmsgs htrig hmode hconf
  unfold handleChat
  rw [hmsgs]
  simp only [htrig, hmode, hconf]
  simp

end Astrolabe

namespace Astrolabe

/-- Concrete call outcomes used by witnesses (every interaction fails). -/
def sampleOracles : Oracles :=
  { classifier := JudgeOutcome.err ("down")
    primary := Except.error ⟨503, ("down"), none⟩
    selfCheck1 := JudgeOutcome.err ("down")
    escalation := Except.error ⟨503, ("down"), none⟩
    selfCheck2 := JudgeOutcome.err ("down") }

/-- A concrete high-stakes request with no confirmation token. -/
def sampleHighStakesMsgs : List Msg :=
  [{ role := ("user"), content := MsgContent.str ("please transfer the money") }]

def sampleStrictConfig : Config := { highStakesConfirmMode := ("strict") }

def sampleHighStakesReq : ChatReq := { body := { messages := some sampleHighStakesMsgs } }

/-- Witness for C6 at a concrete gate-triggering request. -/
theorem strict_confirmation_blocks_upstream_witness :
    handleChat sampleStrictConfig sampleHighStakesReq sampleOracles =
      (Outcome.confirmationRequired
        (detectSafetyGate sampleStrictConfig (safetyTextOf sampleHighStakesMsgs)).matchedSignals,
       { classifierCalls := 0, upstreamCalls := 0, selfCheckCalls := 0, escalationCalls := 0 }) :=
  strict_confirmation_blocks_upstream sampleStrictConfig sampleHighStakesReq sampleOracles
    sampleHighStakesMsgs rfl (by decide) rfl (by decide)

end Astrolabe
namespace Astrolabe

/-- C3: per request at most one escalation call is made, and the escalation
call site is skipped whenever the computed escalation target equals the
backend key already used for the primary answer. -/
theorem at_most_one_escalation :
    (∀ (cfg : Config) (req : ChatReq) (orc : Oracles),
      (handleChat cfg req orc).2.escalationCalls ≤ 1)
    ∧ (∀ (cfg : Config) (rd : RouteDecision) (f : Features) (rt : String) (score : Nat)
        (mk : Option String) (t : String),
        computedEscalationTarget cfg rd f rt score mk = some t → mk = some t →
        escalationCallTarget cfg rd f rt score mk = none) := by
  constructor
  · intro cfg req orc
    unfold handleChat
    dsimp only
    repeat' split
    all_goals dsimp only
    all_goals (first | (split_ifs <;> simp) | simp)
  · intro cfg rd f rt score mk t hcomp hmk
    unfold escalationCallTarget
    rw [hcomp, hmk]
    simp

/-- A concrete FLOOR-labelled high-stakes decision. -/
def sampleFloorDecision : RouteDecision :=
  { categoryId := ("high_stakes"), complexity := ("critical"), adjustedComplexity := ("critical"),
    modelKey := some ("sonnet"), modelId := some ("anthropic/claude-sonnet-4.6"), label := ("FLOOR"),
    rule := ("Budget forced floor with strict follow-up checks"),
    injectionRisk := ("CRITICAL"), safetyGateTriggered := true }

/-- Witness for C3: when the computed escalation target (here the FLOOR
override to opus) equals the backend that already answered, no escalation
call is made. -/
theorem at_most_one_escalation_witness :
    escalationCallTarget {} sampleFloorDecision {} ("q") 4 (some ("opus")) = none :=
  at_most_one_escalation.2 {} sampleFloorDecision {} ("q") 4 (some ("opus")) ("opus")
    (by decide) rfl

end Astrolabe
namespace Astrolabe

/-- C10: a request is streaming unless `body.stream` is exactly the boolean
false — any other value (absent, true, string, number, null) selects the
streaming relay path, on which the self-check and escalation call sites are
never reached; only `stream: false` selects the non-streaming path. -/
theorem stream_default_skips_selfcheck :
    (∀ v : StreamVal, v ≠ StreamVal.boolv false → streamRequestedOf v = true)
    ∧ streamRequestedOf (StreamVal.boolv false) = false
    ∧ (∀ (cfg : Config) (req : ChatReq) (orc : Oracles),
        streamRequestedOf req.body.stream = true →
        (handleChat cfg req orc).2.selfCheckCalls = 0
          ∧ (handleChat cfg req orc).2.escalationCalls = 0) := by
  refine ⟨?_, rfl, ?_⟩
  · intro v hv
    cases v with
    | boolv b => cases b with
      | false => exact absurd rfl hv
      | true => rfl
    | absent => rfl
    | strv s => rfl
    | numv n => rfl
    | nullv => rfl
  · intro cfg req orc hstream
    unfold handleChat
    dsimp only
    repeat' split
    all_goals dsimp only
    all_goals simp_all

/-- Witness for C10: a request with `stream` absent takes the streaming path
and reaches neither the self-check nor the escalation call site. -/
theorem stream_default_skips_selfcheck_witness :
    (handleChat {} sampleHighStakesReq sampleOracles).2.selfCheckCalls = 0
    ∧ (handleChat {} sampleHighStakesReq sampleOracles).2.escalationCalls = 0 :=
  stream_default_skips_selfcheck.2.2 {} sampleHighStakesReq sampleOracles rfl

end Astrolabe
namespace Astrolabe

/-- C4 counterexample: under strict cost mode with non-critical adjusted
complexity and a non-high-stakes category, a score of 1 from the `m25`
backend with a multimodal request escalates to the multimodal specialist
`kimiK25`, not to the ladder's next rung `sonnet` — so the target is not
always the next rung of the per-backend escalation ladder. -/
theorem escalation_ladder_counterexample :
    buildEscalationTarget {} (some ("m25")) 1 sampleRouteDecision { hasMultimodal := true } ("q")
      = some ("kimiK25")
    ∧ escalationPathEntry ("m25") = some (some ("sonnet"))
    ∧ some ("kimiK25") ≠ some ("sonnet") := by
  refine ⟨by decide, by decide, by decide⟩

/-- C4 (amended): forced routes never escalate; score ≥ 4 never escalates;
score ≤ 1 always escalates, and under strict mode with non-critical adjusted
complexity and non-high-stakes category the target is the next rung of the
per-backend escalation ladder — except that no target exists from `opus`,
and from `m25` the context-sensitive specialist selection replaces the rung;
score 2–3 escalates exactly when the category is high_stakes, or the mode is
not strict, or the adjusted complexity is complex or critical — otherwise the
answer is accepted and (having score ≤ 3) marked low-confidence. -/
theorem selfcheck_escalation_decision :
    (∀ (cfg : Config) (score : Nat) (rd : RouteDecision),
      cfg.forceModelId.isSome = true ∨ rd.label = ("FORCED") →
      shouldEscalateFromSelfCheck cfg score rd = false)
    ∧ (∀ (cfg : Config) (score : Nat) (rd : RouteDecision), 4 ≤ score →
        shouldEscalateFromSelfCheck cfg score rd = false)
    ∧ (∀ (cfg : Config) (score : Nat) (rd : RouteDecision),
        cfg.forceModelId = none → rd.label ≠ ("FORCED") → score ≤ 1 →
        shouldEscalateFromSelfCheck cfg score rd = true)
    ∧ (∀ (cfg : Config) (score : Nat) (rd : RouteDecision) (f : Features) (rt mk next : String),
        cfg.forceModelId = none → rd.label ≠ ("FORCED") → score ≤ 1 →
        cfg.costEfficiencyMode = ("strict") → rd.categoryId ≠ ("high_stakes") →
        rd.adjustedComplexity ≠ ("critical") →
        mk ≠ ("opus") → mk ≠ ("m25") → escalationPathEntry mk = some (some next) →
        buildEscalationTarget cfg (some mk) score rd f rt = some next)
    ∧ (∀ (cfg : Config) (score : Nat) (rd : RouteDecision) (f : Features) (rt : String),
        cfg.forceModelId = none → rd.label ≠ ("FORCED") →
        buildEscalationTarget cfg (some ("opus")) score rd f rt = none)
    ∧ (∀ (cfg : Config) (score : Nat) (rd : RouteDecision) (f : Features) (rt : String),
        cfg.forceModelId = none → rd.label ≠ ("FORCED") → score ≤ 1 →
        cfg.costEfficiencyMode = ("strict") → rd.categoryId ≠ ("high_stakes") →
        rd.adjustedComplexity ≠ ("critical") →
        buildEscalationTarget cfg (some ("m25")) score rd f rt
          = some (m25EscalationTarget rd f rt))
    ∧ (∀ (cfg : Config) (score : Nat) (rd : RouteDecision),
        cfg.forceModelId = none → rd.label ≠ ("FORCED") → score = 2 ∨ score = 3 →
        (shouldEscalateFromSelfCheck cfg score rd = true ↔
          (rd.categoryId = ("high_stakes") ∨ cfg.costEfficiencyMode ≠ ("strict")
            ∨ rd.adjustedComplexity = ("complex") ∨ rd.adjustedComplexity = ("critical"))))
    ∧ (∀ (rd : RouteDecision) (score : Nat), score = 2 ∨ score = 3 →
        lowConfidenceFlag rd score = true) := by
  refine ⟨?_, ?_, ?_, ?_, ?_, ?_, ?_, ?_⟩
  · intro cfg score rd h
    rcases h with h | h <;> simp [shouldEscalateFromSelfCheck, h]
  · intro cfg score rd h4
    by_cases hf : (cfg.forceModelId.isSome || rd.label == ("FORCED")) = true <;>
      simp [shouldEscalateFromSelfCheck, hf, h4]
  · intro cfg score rd hforce hlabel h1
    unfold shouldEscalateFromSelfCheck
    rw [if_neg (by simp [hforce, hlabel]), if_neg (by omega), if_pos (by omega)]
  · intro cfg score rd f rt mk next hforce hlabel h1 hmode hcat hadj hopus hm25 hpath
    unfold buildEscalationTarget
    rw [if_neg (by simp [hforce, hlabel]), if_neg (by omega), if_neg (by simp [hopus]),
      if_pos (by omega), if_pos (by simp [hmode, hcat, hadj])]
    simp only [beq_iff_eq, hm25, if_neg]
    rw [if_neg (by simp [hm25])]
    unfold escalationPathOr
    rw [hpath]
  · intro cfg score rd f rt hforce hlabel
    unfold buildEscalationTarget
    rw [if_neg (by simp [hforce, hlabel])]
    by_cases h4 : 4 ≤ score
    · rw [if_pos h4]
    · rw [if_neg h4, if_pos (by simp)]
  · intro cfg score rd f rt hforce hlabel h1 hmode hcat hadj
    unfold buildEscalationTarget
    rw [if_neg (by simp [hforce, hlabel]), if_neg (by omega), if_neg (by simp),
      if_pos (by omega), if_pos (by simp [hmode, hcat, hadj])]
    simp
  · intro cfg score rd hforce hlabel hsc
    unfold shouldEscalateFromSelfCheck
    rw [if_neg (by simp [hforce, hlabel]), if_neg (by omega), if_neg (by omega)]
    by_cases hhs : rd.categoryId = ("high_stakes")
    · simp [hhs]
    · rw [if_neg (by simp [hhs])]
      by_cases hstrict : cfg.costEfficiencyMode = ("strict")
      · rw [if_pos (by simp [hstrict])]
        by_cases hcrit : rd.adjustedComplexity = ("critical")
        · simp [hcrit, hstrict]
        · rw [if_neg (by simp [hcrit])]
          by_cases hcomplex : rd.adjustedComplexity = ("complex")
          · simp [hcomplex]
          · rw [if_neg (by simp [hcomplex])]
            simp [hhs, hstrict, hcrit, hcomplex]
      · rw [if_neg (by simp [hstrict])]
        simp [hstrict]
  · intro rd score hsc
    rcases hsc with rfl | rfl <;> simp [lowConfidenceFlag]

/-- Witness for C4 at concrete inputs: from `grok` the strict ladder rung is
`m25`; from `opus` there is no target; score 2 in strict mode on a standard
route does not escalate. -/
theorem selfcheck_escalation_decision_witness :
    buildEscalationTarget {} (some ("grok")) 1 sampleRouteDecision {} ("q") = some ("m25")
    ∧ buildEscalationTarget {} (some ("opus")) 1 sampleRouteDecision {} ("q") = none
    ∧ buildEscalationTarget {} (some ("m25")) 1 sampleRouteDecision { hasMultimodal := true } ("q")
        = some (m25EscalationTarget sampleRouteDecision { hasMultimodal := true } ("q"))
    ∧ shouldEscalateFromSelfCheck {} 2 sampleRouteDecision = false :=
  ⟨selfcheck_escalation_decision.2.2.2.1 {} 1 sampleRouteDecision {} ("q") ("grok") ("m25")
      rfl (by decide) (by decide) rfl (by decide) (by decide) (by decide) (by decide) (by decide),
   selfcheck_escalation_decision.2.2.2.2.1 {} 1 sampleRouteDecision {} ("q") rfl (by decide),
   selfcheck_escalation_decision.2.2.2.2.2.1 {} 1 sampleRouteDecision { hasMultimodal := true } ("q")
      rfl (by decide) (by decide) rfl (by decide) (by decide),
   by
    have h := (selfcheck_escalation_decision.2.2.2.2.2.2.1 {} 2 sampleRouteDecision rfl
      (by decide) (Or.inl rfl))
    have hx : ¬ (sampleRouteDecision.categoryId = ("high_stakes")
        ∨ Config.costEfficiencyMode {} ≠ ("strict")
        ∨ sampleRouteDecision.adjustedComplexity = ("complex")
        ∨ sampleRouteDecision.adjustedComplexity = ("critical")) := by decide
    cases hres : shouldEscalateFromSelfCheck {} 2 sampleRouteDecision
    · rfl
    · exact absurd (h.mp hres) hx⟩

end Astrolabe
namespace Astrolabe

def sampleClassification : Classification :=
  { categoryId := ("communication"), complexity := ("simple"), confidence := 2,
    reason := ("No strong category signal; used fallback category heuristic."),
    matchedSignals := [], highStakes := false, source := ("heuristic") }

/-- A concrete casual-messaging route decision. -/
def sampleCommDecision : RouteDecision :=
  { categoryId := ("communication"), complexity := ("simple"), adjustedComplexity := ("simple"),
    modelKey := some ("grok"), modelId := some ("x-ai/grok-4.1-fast"), label := ("DEFAULT"),
    rule := ("Casual messaging"), injectionRisk := ("MEDIUM"), safetyGateTriggered := false }

/-- C1 counterexample: on an onboarding-like message ("hello"), a second
application of the cost guardrail to its own output appends the onboarding
guardrail reason to the justification trail again, so the final decision is
not identical. -/
theorem cost_guardrail_not_idempotent_cx :
    applyCostGuardrails { costEfficiencyMode := ("balanced") }
        (applyCostGuardrails { costEfficiencyMode := ("balanced") } sampleCommDecision
          sampleClassification ("hello") {})
        sampleClassification ("hello") {}
      ≠ applyCostGuardrails { costEfficiencyMode := ("balanced") } sampleCommDecision
          sampleClassification ("hello") {} := by
  decide

/-- The decision with its justification trail erased: the part of a
`RouteDecision` the amended idempotence claim compares. -/
def sansRule (d : RouteDecision) : RouteDecision := { d with rule := ("") }

lemma withRoutedModel_categoryId (d : RouteDecision) (k l r : String) :
    (withRoutedModel d k l r).categoryId = d.categoryId := by
  unfold withRoutedModel
  cases modelIdForKey k <;> rfl

lemma withRoutedModel_complexity (d : RouteDecision) (k l r : String) :
    (withRoutedModel d k l r).complexity = d.complexity := by
  unfold withRoutedModel
  cases modelIdForKey k <;> rfl

lemma withRoutedModel_adjustedComplexity (d : RouteDecision) (k l r : String) :
    (withRoutedModel d k l r).adjustedComplexity = d.adjustedComplexity := by
  unfold withRoutedModel
  cases modelIdForKey k <;> rfl

lemma withRoutedModel_injectionRisk (d : RouteDecision) (k l r : String) :
    (withRoutedModel d k l r).injectionRisk = d.injectionRisk := by
  unfold withRoutedModel
  cases modelIdForKey k <;> rfl

lemma withRoutedModel_safetyGateTriggered (d : RouteDecision) (k l r : String) :
    (withRoutedModel d k l r).safetyGateTriggered = d.safetyGateTriggered := by
  unfold withRoutedModel
  cases modelIdForKey k <;> rfl

lemma withRoutedModel_resolved (d : RouteDecision) (k l r mid : String)
    (h : modelIdForKey k = some mid) :
    withRoutedModel d k l r =
      { d with
        modelKey := some k
        modelId := some mid
        label := jsOrStr l d.label
        rule := d.rule ++ ("; ") ++ r } := by
  unfold withRoutedModel
  rw [h]

/-- `strictBudgetTarget` reads only the category and (adjusted) complexity of
the decision. -/
lemma strictBudgetTarget_congr (rd rd' : RouteDecision) (f : Features) (rt : String)
    (h1 : rd.categoryId = rd'.categoryId) (h2 : rd.adjustedComplexity = rd'.adjustedComplexity)
    (h3 : rd.complexity = rd'.complexity) :
    strictBudgetTarget rd f rt = strictBudgetTarget rd' f rt := by
  unfold strictBudgetTarget
  rw [h1, h2, h3]

lemma strictBudgetTarget_resolves (rd : RouteDecision) (f : Features) (rt : String) :
    (modelIdForKey (strictBudgetTarget rd f rt).modelKey).isSome = true := by
  unfold strictBudgetTarget
  dsimp only
  repeat' split
  all_goals decide

lemma strictBudgetTarget_ne_opus (rd : RouteDecision) (f : Features) (rt : String) :
    (strictBudgetTarget rd f rt).modelKey ≠ ("opus") := by
  unfold strictBudgetTarget
  dsimp only
  repeat' split
  all_goals decide

lemma strictBudgetTarget_ne_sonnet (rd : RouteDecision) (f : Features) (rt : String) :
    (strictBudgetTarget rd f rt).modelKey ≠ ("sonnet") := by
  unfold strictBudgetTarget
  dsimp only
  repeat' split
  all_goals decide

/-- The strict target is `gem31Pro` only for multimodal requests. -/
lemma strictBudgetTarget_gem_multimodal (rd : RouteDecision) (f : Features) (rt : String)
    (h : f.hasMultimodal = false) :
    (strictBudgetTarget rd f rt).modelKey ≠ ("gem31Pro") := by
  unfold strictBudgetTarget
  dsimp only
  rw [h]
  repeat' split
  all_goals simp_all

end Astrolabe
namespace Astrolabe

/-- The record produced by a firing onboarding step. -/
def onbRewrite (d : RouteDecision) : RouteDecision :=
  { d with
    modelKey := some ("grok")
    modelId := some ("x-ai/grok-4.1-fast")
    label := ("BUDGET_GUARDRAIL")
    rule := d.rule ++ ("; ") ++ ("Cost guardrail: onboarding/social setup forced to budget model.") }

/-- The record produced by a firing strict-target step. -/
def strictRewrite (d : RouteDecision) (t : BudgetTarget) (mid : String) : RouteDecision :=
  { d with
    modelKey := some t.modelKey
    modelId := some mid
    label := ("BUDGET_GUARDRAIL")
    rule := d.rule ++ ("; ") ++ (("Cost guardrail strict: ") ++ t.reason ++ (".")) }

/-- The record produced by a firing opus-ceiling step. -/
def opusRewrite (d : RouteDecision) (k mid : String) : RouteDecision :=
  { d with
    modelKey := some k
    modelId := some mid
    label := ("BUDGET_GUARDRAIL")
    rule := d.rule ++ ("; ") ++ ("Cost guardrail: blocked direct Opus route for non-high-stakes request.") }

/-- The record produced by a firing sonnet-ceiling step. -/
def sonnetRewrite (d : RouteDecision) : RouteDecision :=
  { d with
    modelKey := some ("grok")
    modelId := some ("x-ai/grok-4.1-fast")
    label := ("BUDGET_GUARDRAIL")
    rule := d.rule ++ ("; ") ++ ("Cost guardrail: downgraded Sonnet for low-complexity request.") }

lemma onboardingStep_on (d : RouteDecision) (rt : String) (ht : Bool)
    (h : (isOnboardingLikeRequest rt && !ht) = true) :
    onboardingStep d rt ht = onbRewrite d := by
  unfold onboardingStep onbRewrite
  rw [if_pos h, withRoutedModel_resolved d ("grok") ("BUDGET_GUARDRAIL")
    ("Cost guardrail: onboarding/social setup forced to budget model.") ("x-ai/grok-4.1-fast") rfl]
  simp [jsOrStr]

lemma onboardingStep_off (d : RouteDecision) (rt : String) (ht : Bool)
    (h : (isOnboardingLikeRequest rt && !ht) = false) :
    onboardingStep d rt ht = d := by
  unfold onboardingStep
  rw [if_neg (by simp [h])]

lemma strictTargetStep_nonstrict (cfg : Config) (d : RouteDecision) (f : Features) (rt : String)
    (h : cfg.costEfficiencyMode ≠ ("strict")) :
    strictTargetStep cfg d f rt = d := by
  unfold strictTargetStep
  rw [if_neg (by simp [h])]

lemma strictTargetStep_fire (cfg : Config) (d : RouteDecision) (f : Features) (rt mid : String)
    (hstrict : cfg.costEfficiencyMode = ("strict"))
    (h : some (strictBudgetTarget d f rt).modelKey ≠ d.modelKey)
    (hmid : modelIdForKey (strictBudgetTarget d f rt).modelKey = some mid) :
    strictTargetStep cfg d f rt = strictRewrite d (strictBudgetTarget d f rt) mid := by
  unfold strictTargetStep strictRewrite
  rw [if_pos (by simp [hstrict])]
  dsimp only
  rw [if_pos h, withRoutedModel_resolved _ _ _ _ mid hmid]
  simp [jsOrStr]

lemma strictTargetStep_nofire (cfg : Config) (d : RouteDecision) (f : Features) (rt : String)
    (h : some (strictBudgetTarget d f rt).modelKey = d.modelKey) :
    strictTargetStep cfg d f rt = d := by
  unfold strictTargetStep
  by_cases hs : (cfg.costEfficiencyMode == ("strict")) = true
  · rw [if_pos hs]
    dsimp only
    rw [if_neg (by simp [h])]
  · rw [if_neg hs]

lemma opusCeilingStep_skip (cfg : Config) (d : RouteDecision)
    (h : d.modelKey ≠ some ("opus")) :
    opusCeilingStep cfg d = d := by
  unfold opusCeilingStep
  rw [if_neg (by simp [h])]

lemma opusCeilingStep_fire_crit (cfg : Config) (d : RouteDecision)
    (hadp : cfg.allowDirectPremiumModels = false) (h : d.modelKey = some ("opus"))
    (hc : d.adjustedComplexity = ("critical")) :
    opusCeilingStep cfg d = opusRewrite d ("m25") ("minimax/minimax-m2.5") := by
  unfold opusCeilingStep opusRewrite
  rw [if_pos (by simp [hadp, h])]
  unfold valueTierModelForCategory
  rw [if_pos (by simp [hc]),
    withRoutedModel_resolved d ("m25") _ _ ("minimax/minimax-m2.5") rfl]
  simp [jsOrStr]

lemma opusCeilingStep_fire_noncrit (cfg : Config) (d : RouteDecision)
    (hadp : cfg.allowDirectPremiumModels = false) (h : d.modelKey = some ("opus"))
    (hc : d.adjustedComplexity ≠ ("critical")) :
    opusCeilingStep cfg d = opusRewrite d ("grok") ("x-ai/grok-4.1-fast") := by
  unfold opusCeilingStep opusRewrite
  rw [if_pos (by simp [hadp, h])]
  rw [if_neg (by simp [hc]),
    withRoutedModel_resolved d ("grok") _ _ ("x-ai/grok-4.1-fast") rfl]
  simp [jsOrStr]

lemma sonnetCeilingStep_skip (cfg : Config) (d : RouteDecision) (sp ht lc mm : Bool)
    (h : d.modelKey ≠ some ("sonnet")) :
    sonnetCeilingStep cfg d sp ht lc mm = d := by
  unfold sonnetCeilingStep
  rw [if_neg (by simp [h])]

lemma sonnetCeilingStep_nofire (cfg : Config) (d : RouteDecision) (sp ht lc mm : Bool)
    (h : (!cfg.allowDirectPremiumModels && d.modelKey == some ("sonnet")
      && (d.adjustedComplexity == ("simple") || d.adjustedComplexity == ("standard")
        || (cfg.costEfficiencyMode == ("strict") && d.adjustedComplexity != ("critical")
          && sp && !ht && !lc && !mm))) = false) :
    sonnetCeilingStep cfg d sp ht lc mm = d := by
  unfold sonnetCeilingStep
  rw [if_neg (by simp [h])]

lemma sonnetCeilingStep_fire (cfg : Config) (d : RouteDecision) (sp ht lc mm : Bool)
    (h : (!cfg.allowDirectPremiumModels && d.modelKey == some ("sonnet")
      && (d.adjustedComplexity == ("simple") || d.adjustedComplexity == ("standard")
        || (cfg.costEfficiencyMode == ("strict") && d.adjustedComplexity != ("critical")
          && sp && !ht && !lc && !mm))) = true) :
    sonnetCeilingStep cfg d sp ht lc mm = sonnetRewrite d := by
  unfold sonnetCeilingStep sonnetRewrite
  rw [if_pos h, withRoutedModel_resolved d ("grok") _ _ ("x-ai/grok-4.1-fast") rfl]
  simp [jsOrStr]

lemma gem31CeilingStep_skip_key (cfg : Config) (d : RouteDecision) (sp ht lc mm : Bool)
    (h : d.modelKey ≠ some ("gem31Pro")) :
    gem31CeilingStep cfg d sp ht lc mm = d := by
  unfold gem31CeilingStep
  rw [if_neg (by simp [h])]

lemma gem31CeilingStep_skip_mm (cfg : Config) (d : RouteDecision) (sp ht lc : Bool) :
    gem31CeilingStep cfg d sp ht lc true = d := by
  unfold gem31CeilingStep
  rw [if_neg (by simp)]

lemma gem31CeilingStep_nonstrict (cfg : Config) (d : RouteDecision) (sp ht lc mm : Bool)
    (h : cfg.costEfficiencyMode ≠ ("strict")) :
    gem31CeilingStep cfg d sp ht lc mm = d := by
  unfold gem31CeilingStep
  rw [if_neg (by simp [h])]

end Astrolabe
namespace Astrolabe

lemma opusCeilingStep_adp (cfg : Config) (d : RouteDecision)
    (h : cfg.allowDirectPremiumModels = true) :
    opusCeilingStep cfg d = d := by
  unfold opusCeilingStep
  rw [if_neg (by simp [h])]

/-- Shorthand for the onboarding-guardrail firing condition of
`applyCostGuardrails`. -/
def onbCond (lum : String) (f : Features) : Bool :=
  isOnboardingLikeRequest (normalizeWhitespace lum)
    && !(f.hasToolsDeclared || decide (0 < f.toolMessages))

/-- In the non-guarded case the guardrail is the five-step chain. -/
lemma acg_main_eq (cfg : Config) (d : RouteDecision) (cls : Classification)
    (lum : String) (f : Features)
    (hforce : cfg.forceModelId = none) (hoff : cfg.costEfficiencyMode ≠ ("off"))
    (hhs : d.categoryId ≠ ("high_stakes")) :
    applyCostGuardrails cfg d cls lum f =
      gem31CeilingStep cfg
        (sonnetCeilingStep cfg
          (opusCeilingStep cfg
            (strictTargetStep cfg
              (onboardingStep d (normalizeWhitespace lum)
                (f.hasToolsDeclared || decide (0 < f.toolMessages)))
              f (normalizeWhitespace lum)))
          (decide (0 < (normalizeWhitespace lum).length) && decide ((normalizeWhitespace lum).length ≤ 240))
          (f.hasToolsDeclared || decide (0 < f.toolMessages))
          (decide (1800 ≤ f.approxTokens)) f.hasMultimodal)
        (decide (0 < (normalizeWhitespace lum).length) && decide ((normalizeWhitespace lum).length ≤ 240))
        (f.hasToolsDeclared || decide (0 < f.toolMessages))
        (decide (1800 ≤ f.approxTokens)) f.hasMultimodal := by
  unfold applyCostGuardrails
  rw [if_neg (by simp [hforce]), if_neg (by simp [hoff]), if_neg (by simp [hhs])]

end Astrolabe
namespace Astrolabe

lemma sonnetCeilingStep_adp (cfg : Config) (d : RouteDecision) (sp ht lc mm : Bool)
    (h : cfg.allowDirectPremiumModels = true) :
    sonnetCeilingStep cfg d sp ht lc mm = d := by
  unfold sonnetCeilingStep
  rw [if_neg (by simp [h])]

/-- The three ceiling steps leave a decision alone when its key is none of
opus, sonnet, gem31Pro. -/
lemma ceilings_skip (cfg : Config) (d : RouteDecision) (k : String)
    (hk : d.modelKey = some k) (h1 : k ≠ ("opus")) (h2 : k ≠ ("sonnet")) (h3 : k ≠ ("gem31Pro"))
    (sp ht lc mm : Bool) :
    gem31CeilingStep cfg (sonnetCeilingStep cfg (opusCeilingStep cfg d) sp ht lc mm) sp ht lc mm = d := by
  rw [opusCeilingStep_skip cfg d (by simp [hk, h1]),
    sonnetCeilingStep_skip cfg d sp ht lc mm (by simp [hk, h2]),
    gem31CeilingStep_skip_key cfg d sp ht lc mm (by simp [hk, h3])]

/-- The three ceiling steps leave a multimodal decision alone when its key is
neither opus nor sonnet. -/
lemma ceilings_skip_mm (cfg : Config) (d : RouteDecision) (k : String)
    (hk : d.modelKey = some k) (h1 : k ≠ ("opus")) (h2 : k ≠ ("sonnet"))
    (sp ht lc : Bool) :
    gem31CeilingStep cfg (sonnetCeilingStep cfg (opusCeilingStep cfg d) sp ht lc true) sp ht lc true = d := by
  rw [opusCeilingStep_skip cfg d (by simp [hk, h1]),
    sonnetCeilingStep_skip cfg d sp ht lc true (by simp [hk, h2]),
    gem31CeilingStep_skip_mm cfg d sp ht lc]

end Astrolabe
namespace Astrolabe

/-- C1 (amended): a second application of the cost guardrail to its own
output with identical inputs leaves every field of the decision unchanged
except possibly the justification trail in `rule`; when the onboarding
guardrail branch does not apply, the second application is the identity on
the whole decision, trail included. -/
theorem cost_guardrail_idempotent_sans_trail :
    ∀ (cfg : Config) (rd : RouteDecision) (cls : Classification) (lum : String) (f : Features),
      sansRule (applyCostGuardrails cfg (applyCostGuardrails cfg rd cls lum f) cls lum f)
        = sansRule (applyCostGuardrails cfg rd cls lum f)
      ∧ (onbCond lum f = false →
          applyCostGuardrails cfg (applyCostGuardrails cfg rd cls lum f) cls lum f
            = applyCostGuardrails cfg rd cls lum f) := by
  intro cfg rd cls lum f
  by_cases hforce0 : cfg.forceModelId.isSome = true
  · have hG : applyCostGuardrails cfg rd cls lum f = rd := by
      unfold applyCostGuardrails
      rw [if_pos hforce0]
    rw [hG, hG]
    exact ⟨rfl, fun _ => rfl⟩
  · by_cases hoff : cfg.costEfficiencyMode = ("off")
    · have hG : applyCostGuardrails cfg rd cls lum f = rd := by
        unfold applyCostGuardrails
        rw [if_neg hforce0, if_pos (by simp [hoff])]
      rw [hG, hG]
      exact ⟨rfl, fun _ => rfl⟩
    · by_cases hhs0 : rd.categoryId = ("high_stakes")
      · have hG : applyCostGuardrails cfg rd cls lum f = rd := by
          unfold applyCostGuardrails
          rw [if_neg hforce0, if_neg (by simp [hoff]), if_pos (by simp [hhs0])]
        rw [hG, hG]
        exact ⟨rfl, fun _ => rfl⟩
      · have hforce : cfg.forceModelId = none := Option.not_isSome_iff_eq_none.mp hforce0
        have hhs : rd.categoryId ≠ ("high_stakes") := hhs0
        have hmain := acg_main_eq cfg rd cls lum f hforce hoff hhs
        by_cases hstrict : cfg.costEfficiencyMode = ("strict")
        · obtain ⟨mid, hmid⟩ := Option.isSome_iff_exists.mp
            (strictBudgetTarget_resolves rd f (normalizeWhitespace lum))
          have hnopus := strictBudgetTarget_ne_opus rd f (normalizeWhitespace lum)
          have hnson := strictBudgetTarget_ne_sonnet rd f (normalizeWhitespace lum)
          by_cases honb : (isOnboardingLikeRequest (normalizeWhitespace lum)
              && !(f.hasToolsDeclared || decide (0 < f.toolMessages))) = true
          · -- strict mode, onboarding branch fires
            rw [onboardingStep_on rd (normalizeWhitespace lum) _ honb] at hmain
            have hcon1 : strictBudgetTarget (onbRewrite rd) f (normalizeWhitespace lum)
                = strictBudgetTarget rd f (normalizeWhitespace lum) :=
              strictBudgetTarget_congr _ rd f _ rfl rfl rfl
            by_cases hg : (strictBudgetTarget rd f (normalizeWhitespace lum)).modelKey = ("grok")
            · rw [strictTargetStep_nofire cfg (onbRewrite rd) f (normalizeWhitespace lum)
                  (by rw [hcon1, hg]; simp [onbRewrite])] at hmain
              rw [ceilings_skip cfg (onbRewrite rd) ("grok") rfl (by decide) (by decide) (by decide)] at hmain
              have hmain2 := acg_main_eq cfg (onbRewrite rd) cls lum f hforce hoff
                (by simpa [onbRewrite] using hhs)
              rw [onboardingStep_on (onbRewrite rd) (normalizeWhitespace lum) _ honb] at hmain2
              have hcon2 : strictBudgetTarget (onbRewrite (onbRewrite rd)) f (normalizeWhitespace lum)
                  = strictBudgetTarget rd f (normalizeWhitespace lum) :=
                strictBudgetTarget_congr _ rd f _ rfl rfl rfl
              rw [strictTargetStep_nofire cfg (onbRewrite (onbRewrite rd)) f (normalizeWhitespace lum)
                  (by rw [hcon2, hg]; simp [onbRewrite])] at hmain2
              rw [ceilings_skip cfg (onbRewrite (onbRewrite rd)) ("grok") rfl
                (by decide) (by decide) (by decide)] at hmain2
              rw [hmain, hmain2]
              constructor
              · simp [sansRule, onbRewrite]
              · intro hfalse
                unfold onbCond at hfalse
                rw [hfalse] at honb
                simp at honb
            · rw [strictTargetStep_fire cfg (onbRewrite rd) f (normalizeWhitespace lum) mid hstrict
                  (by rw [hcon1]; simp [onbRewrite, hg])
                  (by rw [hcon1]; exact hmid)] at hmain
              rw [hcon1] at hmain
              have hA : applyCostGuardrails cfg rd cls lum f
                  = strictRewrite (onbRewrite rd) (strictBudgetTarget rd f (normalizeWhitespace lum)) mid := by
                by_cases hmm : f.hasMultimodal = true
                · rw [hmm] at hmain
                  rw [ceilings_skip_mm cfg
                    (strictRewrite (onbRewrite rd) (strictBudgetTarget rd f (normalizeWhitespace lum)) mid)
                    ((strictBudgetTarget rd f (normalizeWhitespace lum)).modelKey) rfl hnopus hnson] at hmain
                  exact hmain
                · rw [ceilings_skip cfg
                    (strictRewrite (onbRewrite rd) (strictBudgetTarget rd f (normalizeWhitespace lum)) mid)
                    ((strictBudgetTarget rd f (normalizeWhitespace lum)).modelKey) rfl hnopus hnson
                    (strictBudgetTarget_gem_multimodal rd f (normalizeWhitespace lum)
                      (by simpa using hmm))] at hmain
                  exact hmain
              have hmain2 := acg_main_eq cfg
                (strictRewrite (onbRewrite rd) (strictBudgetTarget rd f (normalizeWhitespace lum)) mid)
                cls lum f hforce hoff (by simpa [strictRewrite, onbRewrite] using hhs)
              rw [onboardingStep_on _ (normalizeWhitespace lum) _ honb] at hmain2
              have hcon3 : strictBudgetTarget
                  (onbRewrite (strictRewrite (onbRewrite rd) (strictBudgetTarget rd f (normalizeWhitespace lum)) mid))
                  f (normalizeWhitespace lum)
                  = strictBudgetTarget rd f (normalizeWhitespace lum) :=
                strictBudgetTarget_congr _ rd f _ rfl rfl rfl
              rw [strictTargetStep_fire cfg
                  (onbRewrite (strictRewrite (onbRewrite rd) (strictBudgetTarget rd f (normalizeWhitespace lum)) mid))
                  f (normalizeWhitespace lum) mid hstrict
                  (by rw [hcon3]; simp [onbRewrite, hg])
                  (by rw [hcon3]; exact hmid)] at hmain2
              rw [hcon3] at hmain2
              have hB : applyCostGuardrails cfg
                  (strictRewrite (onbRewrite rd) (strictBudgetTarget rd f (normalizeWhitespace lum)) mid) cls lum f
                  = strictRewrite (onbRewrite (strictRewrite (onbRewrite rd) (strictBudgetTarget rd f (normalizeWhitespace lum)) mid))
                      (strictBudgetTarget rd f (normalizeWhitespace lum)) mid := by
                by_cases hmm : f.hasMultimodal = true
                · rw [hmm] at hmain2
                  rw [ceilings_skip_mm cfg
                    (strictRewrite (onbRewrite (strictRewrite (onbRewrite rd) (strictBudgetTarget rd f (normalizeWhitespace lum)) mid))
                      (strictBudgetTarget rd f (normalizeWhitespace lum)) mid)
                    ((strictBudgetTarget rd f (normalizeWhitespace lum)).modelKey) rfl hnopus hnson] at hmain2
                  exact hmain2
                · rw [ceilings_skip cfg
                    (strictRewrite (onbRewrite (strictRewrite (onbRewrite rd) (strictBudgetTarget rd f (normalizeWhitespace lum)) mid))
                      (strictBudgetTarget rd f (normalizeWhitespace lum)) mid)
                    ((strictBudgetTarget rd f (normalizeWhitespace lum)).modelKey) rfl hnopus hnson
                    (strictBudgetTarget_gem_multimodal rd f (normalizeWhitespace lum)
                      (by simpa using hmm))] at hmain2
                  exact hmain2
              rw [hA, hB]
              constructor
              · simp [sansRule, strictRewrite, onbRewrite]
              · intro hfalse
                unfold onbCond at hfalse
                rw [hfalse] at honb
                simp at honb
          · -- strict mode, onboarding branch does not fire
            have honbf : (isOnboardingLikeRequest (normalizeWhitespace lum)
                && !(f.hasToolsDeclared || decide (0 < f.toolMessages))) = false := by
              exact Bool.eq_false_iff.mpr honb
            rw [onboardingStep_off rd (normalizeWhitespace lum) _ honbf] at hmain
            by_cases hfire : some (strictBudgetTarget rd f (normalizeWhitespace lum)).modelKey = rd.modelKey
            · rw [strictTargetStep_nofire cfg rd f (normalizeWhitespace lum) hfire] at hmain
              have hA : applyCostGuardrails cfg rd cls lum f = rd := by
                by_cases hmm : f.hasMultimodal = true
                · rw [hmm] at hmain
                  rw [ceilings_skip_mm cfg rd
                    ((strictBudgetTarget rd f (normalizeWhitespace lum)).modelKey)
                    hfire.symm hnopus hnson] at hmain
                  exact hmain
                · rw [ceilings_skip cfg rd
                    ((strictBudgetTarget rd f (normalizeWhitespace lum)).modelKey)
                    hfire.symm hnopus hnson
                    (strictBudgetTarget_gem_multimodal rd f (normalizeWhitespace lum)
                      (by simpa using hmm))] at hmain
                  exact hmain
              have heq : applyCostGuardrails cfg (applyCostGuardrails cfg rd cls lum f) cls lum f
                  = applyCostGuardrails cfg rd cls lum f := by
                rw [hA]
                exact hA
              exact ⟨by rw [heq], fun _ => heq⟩
            · rw [strictTargetStep_fire cfg rd f (normalizeWhitespace lum) mid hstrict hfire hmid] at hmain
              have hA : applyCostGuardrails cfg rd cls lum f
                  = strictRewrite rd (strictBudgetTarget rd f (normalizeWhitespace lum)) mid := by
                by_cases hmm : f.hasMultimodal = true
                · rw [hmm] at hmain
                  rw [ceilings_skip_mm cfg
                    (strictRewrite rd (strictBudgetTarget rd f (normalizeWhitespace lum)) mid)
                    ((strictBudgetTarget rd f (normalizeWhitespace lum)).modelKey) rfl hnopus hnson] at hmain
                  exact hmain
                · rw [ceilings_skip cfg
                    (strictRewrite rd (strictBudgetTarget rd f (normalizeWhitespace lum)) mid)
                    ((strictBudgetTarget rd f (normalizeWhitespace lum)).modelKey) rfl hnopus hnson
                    (strictBudgetTarget_gem_multimodal rd f (normalizeWhitespace lum)
                      (by simpa using hmm))] at hmain
                  exact hmain
              have hmain2 := acg_main_eq cfg
                (strictRewrite rd (strictBudgetTarget rd f (normalizeWhitespace lum)) mid)
                cls lum f hforce hoff (by simpa [strictRewrite] using hhs)
              rw [onboardingStep_off _ (normalizeWhitespace lum) _ honbf] at hmain2
              have hcon : strictBudgetTarget
                  (strictRewrite rd (strictBudgetTarget rd f (normalizeWhitespace lum)) mid)
                  f (normalizeWhitespace lum)
                  = strictBudgetTarget rd f (normalizeWhitespace lum) :=
                strictBudgetTarget_congr _ rd f _ rfl rfl rfl
              rw [strictTargetStep_nofire cfg
                  (strictRewrite rd (strictBudgetTarget rd f (normalizeWhitespace lum)) mid)
                  f (normalizeWhitespace lum) (by rw [hcon]; simp [strictRewrite])] at hmain2
              have hB : applyCostGuardrails cfg
                  (strictRewrite rd (strictBudgetTarget rd f (normalizeWhitespace lum)) mid) cls lum f
                  = strictRewrite rd (strictBudgetTarget rd f (normalizeWhitespace lum)) mid := by
                by_cases hmm : f.hasMultimodal = true
                · rw [hmm] at hmain2
                  rw [ceilings_skip_mm cfg
                    (strictRewrite rd (strictBudgetTarget rd f (normalizeWhitespace lum)) mid)
                    ((strictBudgetTarget rd f (normalizeWhitespace lum)).modelKey) rfl hnopus hnson] at hmain2
                  exact hmain2
                · rw [ceilings_skip cfg
                    (strictRewrite rd (strictBudgetTarget rd f (normalizeWhitespace lum)) mid)
                    ((strictBudgetTarget rd f (normalizeWhitespace lum)).modelKey) rfl hnopus hnson
                    (strictBudgetTarget_gem_multimodal rd f (normalizeWhitespace lum)
                      (by simpa using hmm))] at hmain2
                  exact hmain2
              have heq : applyCostGuardrails cfg (applyCostGuardrails cfg rd cls lum f) cls lum f
                  = applyCostGuardrails cfg rd cls lum f := by
                rw [hA]
                exact hB
              exact ⟨by rw [heq], fun _ => heq⟩
        · -- non-strict mode
          by_cases honb : (isOnboardingLikeRequest (normalizeWhitespace lum)
              && !(f.hasToolsDeclared || decide (0 < f.toolMessages))) = true
          · rw [onboardingStep_on rd (normalizeWhitespace lum) _ honb,
              strictTargetStep_nonstrict cfg (onbRewrite rd) f (normalizeWhitespace lum) hstrict,
              ceilings_skip cfg (onbRewrite rd) ("grok") rfl (by decide) (by decide) (by decide)] at hmain
            have hmain2 := acg_main_eq cfg (onbRewrite rd) cls lum f hforce hoff
              (by simpa [onbRewrite] using hhs)
            rw [onboardingStep_on (onbRewrite rd) (normalizeWhitespace lum) _ honb,
              strictTargetStep_nonstrict cfg (onbRewrite (onbRewrite rd)) f (normalizeWhitespace lum) hstrict,
              ceilings_skip cfg (onbRewrite (onbRewrite rd)) ("grok") rfl
                (by decide) (by decide) (by decide)] at hmain2
            rw [hmain, hmain2]
            constructor
            · simp [sansRule, onbRewrite]
            · intro hfalse
              unfold onbCond at hfalse
              rw [hfalse] at honb
              simp at honb
          · have honbf : (isOnboardingLikeRequest (normalizeWhitespace lum)
                && !(f.hasToolsDeclared || decide (0 < f.toolMessages))) = false := by
              exact Bool.eq_false_iff.mpr honb
            rw [onboardingStep_off rd (normalizeWhitespace lum) _ honbf,
              strictTargetStep_nonstrict cfg rd f (normalizeWhitespace lum) hstrict] at hmain
            by_cases hadp : cfg.allowDirectPremiumModels = true
            · rw [opusCeilingStep_adp cfg rd hadp,
                sonnetCeilingStep_adp cfg rd _ _ _ _ hadp,
                gem31CeilingStep_nonstrict cfg rd _ _ _ _ hstrict] at hmain
              have heq : applyCostGuardrails cfg (applyCostGuardrails cfg rd cls lum f) cls lum f
                  = applyCostGuardrails cfg rd cls lum f := by
                rw [hmain]
                exact hmain
              exact ⟨by rw [heq], fun _ => heq⟩
            · have hadpf : cfg.allowDirectPremiumModels = false := by simpa using hadp
              by_cases hopus : rd.modelKey = some ("opus")
              · by_cases hcrit : rd.adjustedComplexity = ("critical")
                · have hk1 : (opusRewrite rd ("m25") ("minimax/minimax-m2.5")).modelKey
                      ≠ some ("sonnet") := by simp [opusRewrite]
                  rw [opusCeilingStep_fire_crit cfg rd hadpf hopus hcrit,
                    sonnetCeilingStep_skip cfg (opusRewrite rd ("m25") ("minimax/minimax-m2.5"))
                      _ _ _ _ hk1,
                    gem31CeilingStep_nonstrict cfg (opusRewrite rd ("m25") ("minimax/minimax-m2.5"))
                      _ _ _ _ hstrict] at hmain
                  have hmain2 := acg_main_eq cfg (opusRewrite rd ("m25") ("minimax/minimax-m2.5"))
                    cls lum f hforce hoff (by simpa [opusRewrite] using hhs)
                  rw [onboardingStep_off _ (normalizeWhitespace lum) _ honbf,
                    strictTargetStep_nonstrict cfg _ f (normalizeWhitespace lum) hstrict,
                    ceilings_skip cfg (opusRewrite rd ("m25") ("minimax/minimax-m2.5")) ("m25") rfl
                      (by decide) (by decide) (by decide)] at hmain2
                  have heq : applyCostGuardrails cfg (applyCostGuardrails cfg rd cls lum f) cls lum f
                      = applyCostGuardrails cfg rd cls lum f := by
                    rw [hmain]
                    exact hmain2
                  exact ⟨by rw [heq], fun _ => heq⟩
                · have hk2 : (opusRewrite rd ("grok") ("x-ai/grok-4.1-fast")).modelKey
                      ≠ some ("sonnet") := by simp [opusRewrite]
                  rw [opusCeilingStep_fire_noncrit cfg rd hadpf hopus hcrit,
                    sonnetCeilingStep_skip cfg (opusRewrite rd ("grok") ("x-ai/grok-4.1-fast"))
                      _ _ _ _ hk2,
                    gem31CeilingStep_nonstrict cfg (opusRewrite rd ("grok") ("x-ai/grok-4.1-fast"))
                      _ _ _ _ hstrict] at hmain
                  have hmain2 := acg_main_eq cfg (opusRewrite rd ("grok") ("x-ai/grok-4.1-fast"))
                    cls lum f hforce hoff (by simpa [opusRewrite] using hhs)
                  rw [onboardingStep_off _ (normalizeWhitespace lum) _ honbf,
                    strictTargetStep_nonstrict cfg _ f (normalizeWhitespace lum) hstrict,
                    ceilings_skip cfg (opusRewrite rd ("grok") ("x-ai/grok-4.1-fast")) ("grok") rfl
                      (by decide) (by decide) (by decide)] at hmain2
                  have heq : applyCostGuardrails cfg (applyCostGuardrails cfg rd cls lum f) cls lum f
                      = applyCostGuardrails cfg rd cls lum f := by
                    rw [hmain]
                    exact hmain2
                  exact ⟨by rw [heq], fun _ => heq⟩
              · rw [opusCeilingStep_skip cfg rd hopus] at hmain
                by_cases hson : (!cfg.allowDirectPremiumModels && rd.modelKey == some ("sonnet")
                    && (rd.adjustedComplexity == ("simple") || rd.adjustedComplexity == ("standard")
                      || (cfg.costEfficiencyMode == ("strict") && rd.adjustedComplexity != ("critical")
                        && (decide (0 < (normalizeWhitespace lum).length)
                            && decide ((normalizeWhitespace lum).length ≤ 240))
                        && !(f.hasToolsDeclared || decide (0 < f.toolMessages))
                        && !decide (1800 ≤ f.approxTokens) && !f.hasMultimodal))) = true
                · rw [sonnetCeilingStep_fire cfg rd _ _ _ _ hson,
                    gem31CeilingStep_nonstrict cfg (sonnetRewrite rd) _ _ _ _ hstrict] at hmain
                  have hmain2 := acg_main_eq cfg (sonnetRewrite rd) cls lum f hforce hoff
                    (by simpa [sonnetRewrite] using hhs)
                  rw [onboardingStep_off _ (normalizeWhitespace lum) _ honbf,
                    strictTargetStep_nonstrict cfg _ f (normalizeWhitespace lum) hstrict,
                    ceilings_skip cfg (sonnetRewrite rd) ("grok") rfl
                      (by decide) (by decide) (by decide)] at hmain2
                  have heq : applyCostGuardrails cfg (applyCostGuardrails cfg rd cls lum f) cls lum f
                      = applyCostGuardrails cfg rd cls lum f := by
                    rw [hmain]
                    exact hmain2
                  exact ⟨by rw [heq], fun _ => heq⟩
                · have hsonf := (Bool.not_eq_true _).mp hson
                  rw [sonnetCeilingStep_nofire cfg rd _ _ _ _ hsonf,
                    gem31CeilingStep_nonstrict cfg rd _ _ _ _ hstrict] at hmain
                  have heq : applyCostGuardrails cfg (applyCostGuardrails cfg rd cls lum f) cls lum f
                      = applyCostGuardrails cfg rd cls lum f := by
                    rw [hmain]
                    exact hmain
                  exact ⟨by rw [heq], fun _ => heq⟩

/-- Witness for C1 on a non-onboarding message: full idempotence. -/
theorem cost_guardrail_idempotent_sans_trail_witness :
    applyCostGuardrails {}
        (applyCostGuardrails {} sampleRouteDecision sampleClassification ("refactor the parser") {})
        sampleClassification ("refactor the parser") {}
      = applyCostGuardrails {} sampleRouteDecision sampleClassification ("refactor the parser") {} :=
  (cost_guardrail_idempotent_sans_trail {} sampleRouteDecision sampleClassification
    ("refactor the parser") {}).2 (by decide)

end Astrolabe
